import Mathlib

/-!
Verification development for the datetime core of `util_server.py`
(tools `get_current_datetime` and `calculate_time_difference`).

Modelling conventions.
All instants and durations are integer counts of microseconds, which is the
exact resolution of Python `datetime`/`timedelta` values; `timedelta`
arithmetic between two datetimes is exact at this resolution, and the float
`total_seconds()` value is modelled by the exact rational `micros / 10^6`.
Calendar arithmetic follows CPython `datetime.date.toordinal` (proleptic
Gregorian); the inverse conversion (epoch microseconds to calendar fields,
used for `datetime.now(tz)` and `astimezone`) is implemented with a year
guess and is proved below to invert `toordinal` exactly.
Strings are modelled by Lean `String`; Python `str.upper`/`str.lower` are
modelled by mapping ASCII `Char.toUpper`/`Char.toLower` over the characters
(all identifiers compared by the source are ASCII).
-/

/-- Python `int(x)` for an exact value given in microseconds: truncation of
`x = micros / 10^6` toward zero, as `Int.tdiv`. -/
def pyIntOfMicros (micros : ℤ) : ℤ := Int.tdiv micros 1000000

/-- CPython leap-year test (`datetime._is_leap`), extended to all integers
with euclidean `%` (which agrees with Python `%` for positive modulus). -/
def isLeapZ (y : ℤ) : Bool := (y % 4 == 0 && y % 100 != 0) || y % 400 == 0

/-- Days in a month (`datetime._days_in_month`). -/
def daysInMonthZ (y m : ℤ) : ℤ :=
  if m = 2 then (if isLeapZ y then 29 else 28)
  else if m = 4 ∨ m = 6 ∨ m = 9 ∨ m = 11 then 30
  else 31

/-- Days before January 1st of year `y` (`datetime._days_before_year`),
extended proleptically to all integers with floor division. -/
def daysBeforeYearZ (y : ℤ) : ℤ :=
  365 * (y - 1) + (y - 1) / 4 - (y - 1) / 100 + (y - 1) / 400

/-- Cumulative days before month `m` in a non-leap year. -/
def monthTable (m : ℤ) : ℤ :=
  if m ≤ 1 then 0 else if m = 2 then 31 else if m = 3 then 59
  else if m = 4 then 90 else if m = 5 then 120 else if m = 6 then 151
  else if m = 7 then 181 else if m = 8 then 212 else if m = 9 then 243
  else if m = 10 then 273 else if m = 11 then 304 else 334

/-- Days in year `y` preceding the first of month `m`
(`datetime._days_before_month`). -/
def daysBeforeMonthZ (y m : ℤ) : ℤ :=
  monthTable m + (if 2 < m ∧ isLeapZ y then 1 else 0)

/-- CPython `date.toordinal`: day number with `0001-01-01` mapped to `1`. -/
def toOrdinalZ (y m d : ℤ) : ℤ := daysBeforeYearZ y + daysBeforeMonthZ y m + d

/-- Days since the Unix epoch `1970-01-01` (whose ordinal is 719163). -/
def epochDays (y m d : ℤ) : ℤ := toOrdinalZ y m d - 719163

/-- The year containing day number `Z` (counted with `0001-01-01` as day `0`):
a linear guess from the 400-year cycle of 146097 days, corrected by at most
one year. -/
def yearFromDays (Z : ℤ) : ℤ :=
  if daysBeforeYearZ ((400 * Z) / 146097 + 2) ≤ Z
  then (400 * Z) / 146097 + 2
  else (400 * Z) / 146097 + 1

/-- Month and day-of-month from a zero-based day of year (`leap` is `1` in a
leap year, else `0`). -/
def mdFromDoy (leap doy : ℤ) : ℤ × ℤ :=
  if doy < 31 then (1, doy + 1)
  else if doy < 59 + leap then (2, doy - 31 + 1)
  else if doy < 90 + leap then (3, doy - (59 + leap) + 1)
  else if doy < 120 + leap then (4, doy - (90 + leap) + 1)
  else if doy < 151 + leap then (5, doy - (120 + leap) + 1)
  else if doy < 181 + leap then (6, doy - (151 + leap) + 1)
  else if doy < 212 + leap then (7, doy - (181 + leap) + 1)
  else if doy < 243 + leap then (8, doy - (212 + leap) + 1)
  else if doy < 273 + leap then (9, doy - (243 + leap) + 1)
  else if doy < 304 + leap then (10, doy - (273 + leap) + 1)
  else if doy < 334 + leap then (11, doy - (304 + leap) + 1)
  else (12, doy - (334 + leap) + 1)

/-- Calendar fields `(year, month, day)` of the day `d` days after the Unix
epoch `1970-01-01` (the inverse of `epochDays`; CPython `date.fromordinal`). -/
def civilFromDays (d : ℤ) : ℤ × ℤ × ℤ :=
  (yearFromDays (d + 719162),
   mdFromDoy (if isLeapZ (yearFromDays (d + 719162)) then 1 else 0)
     (d + 719162 - daysBeforeYearZ (yearFromDays (d + 719162))))


/-!
Python `datetime` values. A value is a tuple of calendar fields plus an
optional UTC offset (`none` models a naive datetime, `some off` an aware one
with `utcoffset()` equal to `off` microseconds) and the string returned by
`tzname()` (empty for naive values, as rendered by `strftime("%Z")`).
-/

structure PyDatetime where
  year : ℤ
  month : ℤ
  day : ℤ
  hour : ℤ
  minute : ℤ
  second : ℤ
  micro : ℤ
  tzoff : Option ℤ
  tzname : String
  deriving DecidableEq

/-- Microseconds from the Unix epoch to the wall-clock fields read as UTC. -/
def naiveMicros (t : PyDatetime) : ℤ :=
  (epochDays t.year t.month t.day * 86400
    + t.hour * 3600 + t.minute * 60 + t.second) * 1000000 + t.micro

/-- Python datetime subtraction `a - b` in microseconds: aware minus aware
compares absolute instants, naive minus naive compares wall clocks, and a
mixed pair raises `TypeError` (modelled as `none`; the source catches it in
the blanket `except` handler). -/
def pySub (a b : PyDatetime) : Option ℤ :=
  match a.tzoff, b.tzoff with
  | some oa, some ob => some ((naiveMicros a - oa) - (naiveMicros b - ob))
  | none, none => some (naiveMicros a - naiveMicros b)
  | _, _ => none

/-- The aware datetime whose absolute instant is `e` microseconds from the
epoch, displayed at UTC offset `off` with zone string `name` (CPython
`datetime.fromtimestamp` field computation, floor divisions). -/
def fromEpochMicros (e off : ℤ) (name : String) : PyDatetime :=
  { year := (civilFromDays ((e + off) / 86400000000)).1
    month := (civilFromDays ((e + off) / 86400000000)).2.1
    day := (civilFromDays ((e + off) / 86400000000)).2.2
    hour := (e + off) % 86400000000 / 1000000 / 3600
    minute := (e + off) % 86400000000 / 1000000 % 3600 / 60
    second := (e + off) % 86400000000 / 1000000 % 60
    micro := (e + off) % 86400000000 % 1000000
    tzoff := some off
    tzname := name }


/-!
The pytz timezone model. A `PytzZone` carries the fixed attributes of the
unlocalized `pytz.timezone(...)` object: `lmtOff`/`lmtAbbrev` are the offset
and abbreviation the object reports when it is attached to a datetime with
`datetime.replace(tzinfo=...)` without localization (for most zones this is
the zone mean time, e.g. `LMT -04:56` for `US/Eastern`), plus the list of
UTC transition instants with the offset and abbreviation in effect from each
one (an excerpt of the IANA data carried by pytz).
-/

structure PytzZone where
  lmtOff : ℤ
  lmtAbbrev : String
  transitions : List (ℤ × ℤ × String)
  deriving DecidableEq

/-- Offset (microseconds) and abbreviation in effect at UTC instant `t`:
the entry of the last transition at or before `t`, else the pre-transition
default. This is how pytz `fromutc`/`astimezone`/`datetime.now(tz)` resolve
a UTC instant. -/
def offsetInfoAt (z : PytzZone) (t : ℤ) : ℤ × String :=
  z.transitions.foldl (fun acc tr => if tr.1 ≤ t then (tr.2.1, tr.2.2) else acc)
    (z.lmtOff, z.lmtAbbrev)

/-- The timezone object held by the variable `tz` in the source: either
`datetime.timezone.utc` (taken when `timezone_name.upper() == "UTC"`), or a
pytz zone from the database. -/
inductive TZ where
  | utc : TZ
  | pytz : PytzZone → TZ
  deriving DecidableEq

/-- UTC offset in microseconds that `datetime.replace(tzinfo=tz)` attaches:
zero for `timezone.utc`; for a pytz zone the fixed default offset of the
unlocalized zone object (pytz applies no transition lookup on `replace`). -/
def tzReplaceOff : TZ → ℤ
  | TZ.utc => 0
  | TZ.pytz z => z.lmtOff

/-- The `tzname()` string after `datetime.replace(tzinfo=tz)`. -/
def tzReplaceName : TZ → String
  | TZ.utc => "UTC"
  | TZ.pytz z => z.lmtAbbrev

/-- `datetime.now(tz)` at wall-clock instant `nowE` (epoch microseconds):
pytz resolves the offset in effect via `fromutc`, `timezone.utc` is fixed. -/
def pyNow (tz : TZ) (nowE : ℤ) : PyDatetime :=
  match tz with
  | TZ.utc => fromEpochMicros nowE 0 "UTC"
  | TZ.pytz z => fromEpochMicros nowE (offsetInfoAt z nowE).1 (offsetInfoAt z nowE).2

/-!
String helpers: Python `str.upper`/`str.lower` (ASCII), zero padding,
`format(n, ",")` digit grouping, and the `{:,.0f}` float display (exact
round-half-even on the microsecond value).
-/

/-- Python `str.upper` restricted to ASCII input. -/
def pyUpper (s : String) : String := ⟨s.data.map Char.toUpper⟩

/-- Python `str.lower` restricted to ASCII input. -/
def pyLower (s : String) : String := ⟨s.data.map Char.toLower⟩

/-- Zero-pad a nonnegative integer to two digits (`%02d`). -/
def pad2 (n : ℤ) : String := (if n < 10 then "0" else "") ++ toString n

/-- Zero-pad a nonnegative integer to four digits (`%04d`, strftime `%Y`). -/
def pad4 (n : ℤ) : String :=
  (if n < 10 then "000" else if n < 100 then "00" else if n < 1000 then "0" else "")
    ++ toString n

/-- Zero-pad a nonnegative integer to six digits (`%06d`, microseconds). -/
def pad6 (n : ℤ) : String :=
  (if n < 10 then "00000" else if n < 100 then "0000" else if n < 1000 then "000"
   else if n < 10000 then "00" else if n < 100000 then "0" else "")
    ++ toString n

/-- Insert a thousands separator after every third digit, input reversed. -/
def groupThousandsRev : ℕ → List Char → List Char
  | _, [] => []
  | i, c :: cs =>
    c :: (if (i + 1) % 3 = 0 ∧ cs ≠ [] then ',' :: groupThousandsRev (i + 1) cs
          else groupThousandsRev (i + 1) cs)

/-- Python `format(n, ",")` for a nonnegative integer. -/
def commaFmt (n : ℤ) : String := ⟨(groupThousandsRev 0 (toString n.toNat).data.reverse).reverse⟩

/-- Rounding performed by the `{:,.0f}` format on the nonnegative exact
second count `t / 10^6`: round to nearest integer, ties to even. -/
def roundHalfEvenSeconds (t : ℤ) : ℤ :=
  if t % 1000000 > 500000 then t / 1000000 + 1
  else if t % 1000000 < 500000 then t / 1000000
  else if (t / 1000000) % 2 = 0 then t / 1000000 else t / 1000000 + 1

/-- Python `abs` on an integer microsecond count. -/
def pyAbs (d : ℤ) : ℤ := if d < 0 then -d else d

/-!
The parser models. `parseSpaceForm` is CPython
`datetime.strptime(s, "%Y-%m-%d %H:%M:%S")`: `%Y` matches exactly four
digits, `%m`/`%d`/`%H`/`%M`/`%S` match one or two digits within the ranges
accepted by `_strptime.TimeRE` (`%m` 1-12, `%d` 1-31, `%H` 0-23, `%M` 0-59,
`%S` 0-61), the literal space matches one or more whitespace characters, the
match must consume the whole string, and the `datetime` constructor then
validates the day against the month length and rejects leap seconds.
`fromIso` is CPython 3.10 `datetime.fromisoformat` (the C implementation):
a strict `YYYY-MM-DD` date, an arbitrary one-character separator, a time
`HH[:MM[:SS[.fff | .ffffff]]]`, and an optional offset suffix
`[+-]HH:MM[:SS[.ffffff]]` (at least sign plus five characters), with field
validation by the `datetime` and `timezone` constructors.
-/

/-- Numeric value of a decimal digit character. -/
def digitVal (c : Char) : ℤ := (c.toNat : ℤ) - 48

/-- Value of a two-digit field. -/
def val2 (a b : Char) : ℤ := 10 * digitVal a + digitVal b

/-- Value of a four-digit field. -/
def val4 (a b c d : Char) : ℤ :=
  1000 * digitVal a + 100 * digitVal b + 10 * digitVal c + digitVal d

/-- Split a leading run of decimal digits from a character list. -/
def takeDigits : List Char → List Char × List Char
  | [] => ([], [])
  | c :: cs =>
    if c.isDigit then ((c :: (takeDigits cs).1), (takeDigits cs).2)
    else ([], c :: cs)

/-- Split a leading run of whitespace from a character list. -/
def takeSpaces : List Char → List Char × List Char
  | [] => ([], [])
  | c :: cs =>
    if c.isWhitespace then ((c :: (takeSpaces cs).1), (takeSpaces cs).2)
    else ([], c :: cs)

/-- Value of a digit run (most significant first). -/
def digitsVal (l : List Char) : ℤ := l.foldl (fun acc c => 10 * acc + digitVal c) 0

/-- Fields accepted by the `datetime` constructor (year range, day within
month length, no leap seconds). -/
def validYMDHMS (y mo dd h mi s : ℤ) : Prop :=
  1 ≤ y ∧ y ≤ 9999 ∧ 1 ≤ mo ∧ mo ≤ 12 ∧ 1 ≤ dd ∧ dd ≤ daysInMonthZ y mo
    ∧ 0 ≤ h ∧ h ≤ 23 ∧ 0 ≤ mi ∧ mi ≤ 59 ∧ 0 ≤ s ∧ s ≤ 59

instance (y mo dd h mi s : ℤ) : Decidable (validYMDHMS y mo dd h mi s) := by
  unfold validYMDHMS
  infer_instance

/-- CPython `datetime.strptime(s, "%Y-%m-%d %H:%M:%S")` on the character
list of `s` (see the section comment for the modelled regex semantics). -/
def parseSpaceForm (l : List Char) : Option (ℤ × ℤ × ℤ × ℤ × ℤ × ℤ) :=
  match l with
  | y1 :: y2 :: y3 :: y4 :: '-' :: r1 =>
    if y1.isDigit ∧ y2.isDigit ∧ y3.isDigit ∧ y4.isDigit then
      let mo := digitsVal (takeDigits r1).1
      if ((takeDigits r1).1.length = 1 ∨ (takeDigits r1).1.length = 2) ∧ 1 ≤ mo ∧ mo ≤ 12 then
        match (takeDigits r1).2 with
        | '-' :: r2 =>
          let dd := digitsVal (takeDigits r2).1
          if ((takeDigits r2).1.length = 1 ∨ (takeDigits r2).1.length = 2)
              ∧ 1 ≤ dd ∧ dd ≤ 31 then
            if (takeSpaces (takeDigits r2).2).1.length ≠ 0 then
              let r3 := (takeSpaces (takeDigits r2).2).2
              let hv := digitsVal (takeDigits r3).1
              if ((takeDigits r3).1.length = 1 ∨ (takeDigits r3).1.length = 2) ∧ hv ≤ 23 then
                match (takeDigits r3).2 with
                | ':' :: r4 =>
                  let miv := digitsVal (takeDigits r4).1
                  if ((takeDigits r4).1.length = 1 ∨ (takeDigits r4).1.length = 2)
                      ∧ miv ≤ 59 then
                    match (takeDigits r4).2 with
                    | ':' :: r5 =>
                      let sv := digitsVal (takeDigits r5).1
                      if ((takeDigits r5).1.length = 1 ∨ (takeDigits r5).1.length = 2)
                          ∧ sv ≤ 61 then
                        if (takeDigits r5).2 = [] then
                          let yv := val4 y1 y2 y3 y4
                          if validYMDHMS yv mo dd hv miv sv then
                            some (yv, mo, dd, hv, miv, sv)
                          else none
                        else none
                      else none
                    | _ => none
                  else none
                | _ => none
              else none
            else none
          else none
        | _ => none
      else none
    else none
  | _ => none

/-- Python `c in s` membership test on the character list. -/
def hasChar (c : Char) : List Char → Bool
  | [] => false
  | x :: xs => x == c || hasChar c xs

/-- Replace each `Z` by `+00:00` (the source preprocessing
`start_datetime.replace("Z", "+00:00")`, applied to every occurrence). -/
def replaceZ : List Char → List Char
  | [] => []
  | c :: cs =>
    if c = 'Z' then '+' :: '0' :: '0' :: ':' :: '0' :: '0' :: replaceZ cs
    else c :: replaceZ cs

/-- Split a time string at the first `+` or `-`, which starts the offset
suffix (CPython scans for the sign character). -/
def splitTzSign : List Char → List Char × Option (Char × List Char)
  | [] => ([], none)
  | c :: cs =>
    if c = '+' ∨ c = '-' then ([], some (c, cs))
    else ((c :: (splitTzSign cs).1), (splitTzSign cs).2)

/-- Fraction part after the dot: exactly three or exactly six digits,
scaled to microseconds. -/
def parseFrac (l : List Char) : Option ℤ :=
  match l with
  | [a, b, c] =>
    if a.isDigit ∧ b.isDigit ∧ c.isDigit then
      some (1000 * (100 * digitVal a + 10 * digitVal b + digitVal c))
    else none
  | [a, b, c, d, e, f] =>
    if a.isDigit ∧ b.isDigit ∧ c.isDigit ∧ d.isDigit ∧ e.isDigit ∧ f.isDigit then
      some (100000 * digitVal a + 10000 * digitVal b + 1000 * digitVal c
        + 100 * digitVal d + 10 * digitVal e + digitVal f)
    else none
  | _ => none

/-- CPython `parse_hh_mm_ss_ff`: `HH[:MM[:SS]][.fff | .ffffff]`, each
component exactly two digits, the fraction allowed after any component. -/
def parseHMSF (l : List Char) : Option (ℤ × ℤ × ℤ × ℤ) :=
  match l with
  | h1 :: h2 :: rest =>
    if h1.isDigit ∧ h2.isDigit then
      match rest with
      | [] => some (val2 h1 h2, 0, 0, 0)
      | '.' :: fr => (parseFrac fr).map (fun f => (val2 h1 h2, 0, 0, f))
      | ':' :: m1 :: m2 :: rest2 =>
        if m1.isDigit ∧ m2.isDigit then
          match rest2 with
          | [] => some (val2 h1 h2, val2 m1 m2, 0, 0)
          | '.' :: fr => (parseFrac fr).map (fun f => (val2 h1 h2, val2 m1 m2, 0, f))
          | ':' :: s1 :: s2 :: rest3 =>
            if s1.isDigit ∧ s2.isDigit then
              match rest3 with
              | [] => some (val2 h1 h2, val2 m1 m2, val2 s1 s2, 0)
              | '.' :: fr => (parseFrac fr).map (fun f => (val2 h1 h2, val2 m1 m2, val2 s1 s2, f))
              | _ => none
            else none
          | _ => none
        else none
      | _ => none
    else none
  | _ => none

/-- Name reported by a `datetime.timezone` built from an offset
(`timezone._name_from_offset`; the zero offset is the `timezone.utc`
singleton named `UTC`). -/
def pyTzName (off : ℤ) : String :=
  if off = 0 then "UTC"
  else
    "UTC" ++ (if off < 0 then "-" else "+")
      ++ pad2 (pyAbs off / 1000000 / 3600) ++ ":" ++ pad2 (pyAbs off / 1000000 % 3600 / 60)
      ++ (if pyAbs off / 1000000 % 60 ≠ 0 ∨ pyAbs off % 1000000 ≠ 0 then
            ":" ++ pad2 (pyAbs off / 1000000 % 60) else "")
      ++ (if pyAbs off % 1000000 ≠ 0 then "." ++ pad6 (pyAbs off % 1000000) else "")

/-- CPython 3.10 `datetime.fromisoformat` on a character list (after the
`Z` replacement done by the source). Returns a naive value when no offset
suffix is present, an aware one otherwise. -/
def fromIso (l : List Char) : Option PyDatetime :=
  match l with
  | y1 :: y2 :: y3 :: y4 :: '-' :: m1 :: m2 :: '-' :: d1 :: d2 :: rest =>
    if y1.isDigit ∧ y2.isDigit ∧ y3.isDigit ∧ y4.isDigit ∧ m1.isDigit ∧ m2.isDigit
        ∧ d1.isDigit ∧ d2.isDigit then
      match rest with
      | [] =>
        if validYMDHMS (val4 y1 y2 y3 y4) (val2 m1 m2) (val2 d1 d2) 0 0 0 then
          some { year := val4 y1 y2 y3 y4, month := val2 m1 m2, day := val2 d1 d2,
                 hour := 0, minute := 0, second := 0, micro := 0,
                 tzoff := none, tzname := "" }
        else none
      | _sep :: timel =>
        match parseHMSF (splitTzSign timel).1 with
        | none => none
        | some (h, mi, s, f) =>
          match (splitTzSign timel).2 with
          | none =>
            if validYMDHMS (val4 y1 y2 y3 y4) (val2 m1 m2) (val2 d1 d2) h mi s then
              some { year := val4 y1 y2 y3 y4, month := val2 m1 m2, day := val2 d1 d2,
                     hour := h, minute := mi, second := s, micro := f,
                     tzoff := none, tzname := "" }
            else none
          | some (sg, tzl) =>
            if tzl.length < 5 then none
            else
              match parseHMSF tzl with
              | none => none
              | some (th, tm, ts, tf) =>
                let off := ((if sg = '-' then (-1 : ℤ) else 1)
                  * ((th * 3600 + tm * 60 + ts) * 1000000 + tf))
                if validYMDHMS (val4 y1 y2 y3 y4) (val2 m1 m2) (val2 d1 d2) h mi s
                    ∧ pyAbs off < 86400000000 then
                  some { year := val4 y1 y2 y3 y4, month := val2 m1 m2, day := val2 d1 d2,
                         hour := h, minute := mi, second := s, micro := f,
                         tzoff := some off, tzname := pyTzName off }
                else none
    else none
  | _ => none

/-- The per-literal parsing step of `calculate_time_difference`
(source lines 195-201 and 208-214): the ISO branch when the literal
contains a `T`, otherwise `strptime` plus `replace(tzinfo=tz)`. -/
def parse_dt (tz : TZ) (s : String) : Option PyDatetime :=
  if hasChar 'T' s.data then fromIso (replaceZ s.data)
  else
    match parseSpaceForm s.data with
    | none => none
    | some (y, mo, dd, h, mi, sec) =>
      some { year := y, month := mo, day := dd, hour := h, minute := mi, second := sec,
             micro := 0, tzoff := some (tzReplaceOff tz), tzname := tzReplaceName tz }

/-!
Output rendering and the two tool entry points. The ambient inputs that the
source reads implicitly are explicit parameters: `db` models the pytz
database lookup (`pytz.timezone`, `none` for `UnknownTimeZoneError`) and
`nowE` the wall clock captured by `datetime.now` (epoch microseconds).
-/

/-- Failure text for an unresolvable timezone (source lines 144 and 190). -/
def unknownTzMsg (name : String) : String :=
  "❌ Unknown timezone: " ++ name
    ++ "\n💡 Try: UTC, US/Eastern, Europe/London, America/Sao_Paulo, etc."

/-- Failure text for an unparsable start literal (source line 203). -/
def invalidStartMsg (lit : String) : String :=
  "❌ Invalid start datetime format: " ++ lit
    ++ "\n💡 Use: YYYY-MM-DD HH:MM:SS or YYYY-MM-DDTHH:MM:SS"

/-- Failure text for an unparsable end literal (source line 216). -/
def invalidEndMsg (lit : String) : String :=
  "❌ Invalid end datetime format: " ++ lit
    ++ "\n💡 Use: YYYY-MM-DD HH:MM:SS or YYYY-MM-DDTHH:MM:SS"

/-- Text produced by the blanket `except` handler (source line 259) for the
one exception reachable in this model: subtracting a naive and an aware
datetime raises `TypeError` with this message. -/
def calcGenericError : String :=
  "❌ Error calculating time difference: can\x27t subtract offset-naive and offset-aware datetimes"

/-- Timezone resolution step shared by both tools (source lines 184-190 and
137-143): the literal `UTC` in any letter case bypasses the database. -/
def parse_tz (db : String → Option PytzZone) (name : String) : Option TZ :=
  if pyUpper name = "UTC" then some TZ.utc
  else
    match db name with
    | none => none
    | some z => some (TZ.pytz z)

/-- `days` component (source line 225): `int(total_seconds // 86400)` on the
exact nonnegative microsecond magnitude. -/
def bdDays (t : ℤ) : ℤ := t / 86400000000

/-- `hours` component (source line 226): `int((total_seconds % 86400) // 3600)`. -/
def bdHours (t : ℤ) : ℤ := t % 86400000000 / 3600000000

/-- `minutes` component (source line 227): `int((total_seconds % 3600) // 60)`. -/
def bdMinutes (t : ℤ) : ℤ := t % 3600000000 / 60000000

/-- `seconds` component (source line 228): `int(total_seconds % 60)`. -/
def bdSeconds (t : ℤ) : ℤ := t % 60000000 / 1000000

/-- Direction word (source line 231): `later` when the signed difference is
at least zero, else `earlier`. -/
def pyDirection (delta : ℤ) : String := if 0 ≤ delta then "later" else "earlier"

/-- `strftime("%Y-%m-%d %H:%M:%S %Z")`, used for the From and To lines. -/
def fmtDateTimeSpace (t : PyDatetime) : String :=
  pad4 t.year ++ "-" ++ pad2 t.month ++ "-" ++ pad2 t.day ++ " "
    ++ pad2 t.hour ++ ":" ++ pad2 t.minute ++ ":" ++ pad2 t.second ++ " " ++ t.tzname

/-- The Summary line (source lines 247-254). -/
def summaryLine (days hours minutes seconds : ℤ) (direction : String) : String :=
  if 0 < days then
    "**Summary:** " ++ toString days ++ " days, " ++ toString hours ++ " hours, "
      ++ toString minutes ++ " minutes (" ++ direction ++ ")\n"
  else if 0 < hours then
    "**Summary:** " ++ toString hours ++ " hours, " ++ toString minutes
      ++ " minutes (" ++ direction ++ ")\n"
  else if 0 < minutes then
    "**Summary:** " ++ toString minutes ++ " minutes, " ++ toString seconds
      ++ " seconds (" ++ direction ++ ")\n"
  else
    "**Summary:** " ++ toString seconds ++ " seconds (" ++ direction ++ ")\n"

/-- The success text of `calculate_time_difference` (source lines 234-256),
built from the resolved datetimes and the signed difference `delta` in
microseconds. -/
def renderSuccess (start_dt end_dt : PyDatetime) (timezone_name : String) (delta : ℤ) : String :=
  "⏱️ **Time Difference Calculation**\n"
    ++ "**From:** " ++ fmtDateTimeSpace start_dt ++ "\n"
    ++ "**To:** " ++ fmtDateTimeSpace end_dt ++ "\n"
    ++ "**Timezone:** " ++ timezone_name ++ "\n\n"
    ++ "**Total Duration:** " ++ commaFmt (roundHalfEvenSeconds (pyAbs delta)) ++ " seconds\n"
    ++ "**Breakdown:**\n"
    ++ "- Days: " ++ toString (bdDays (pyAbs delta)) ++ "\n"
    ++ "- Hours: " ++ toString (bdHours (pyAbs delta)) ++ "\n"
    ++ "- Minutes: " ++ toString (bdMinutes (pyAbs delta)) ++ "\n"
    ++ "- Seconds: " ++ toString (bdSeconds (pyAbs delta)) ++ "\n\n"
    ++ summaryLine (bdDays (pyAbs delta)) (bdHours (pyAbs delta)) (bdMinutes (pyAbs delta))
        (bdSeconds (pyAbs delta)) (pyDirection delta)

/-- The tool `calculate_time_difference` (source lines 170-259). -/
def calculate_time_difference (db : String → Option PytzZone) (nowE : ℤ)
    (start_datetime end_datetime timezone_name : String) : String :=
  match parse_tz db timezone_name with
  | none => unknownTzMsg timezone_name
  | some tz =>
    match parse_dt tz start_datetime with
    | none => invalidStartMsg start_datetime
    | some start_dt =>
      match (if end_datetime = "" then some (pyNow tz nowE)
             else parse_dt tz end_datetime) with
      | none => invalidEndMsg end_datetime
      | some end_dt =>
        match pySub end_dt start_dt with
        | none => calcGenericError
        | some delta => renderSuccess start_dt end_dt timezone_name delta

/-- Offset rendering of `isoformat()` and of `timezone` names:
`±HH:MM[:SS[.ffffff]]`. -/
def fmtOffsetColon (off : ℤ) : String :=
  (if off < 0 then "-" else "+")
    ++ pad2 (pyAbs off / 1000000 / 3600) ++ ":" ++ pad2 (pyAbs off / 1000000 % 3600 / 60)
    ++ (if pyAbs off / 1000000 % 60 ≠ 0 ∨ pyAbs off % 1000000 ≠ 0 then
          ":" ++ pad2 (pyAbs off / 1000000 % 60) else "")
    ++ (if pyAbs off % 1000000 ≠ 0 then "." ++ pad6 (pyAbs off % 1000000) else "")

/-- `datetime.isoformat()`. -/
def isoFmt (t : PyDatetime) : String :=
  pad4 t.year ++ "-" ++ pad2 t.month ++ "-" ++ pad2 t.day ++ "T"
    ++ pad2 t.hour ++ ":" ++ pad2 t.minute ++ ":" ++ pad2 t.second
    ++ (if t.micro ≠ 0 then "." ++ pad6 t.micro else "")
    ++ (match t.tzoff with
        | none => ""
        | some off => fmtOffsetColon off)

/-- `strftime("%z")`: empty for naive values, else `±HHMM[SS[.ffffff]]`. -/
def strftimeZfmt (t : PyDatetime) : String :=
  match t.tzoff with
  | none => ""
  | some off =>
    (if off < 0 then "-" else "+")
      ++ pad2 (pyAbs off / 1000000 / 3600) ++ pad2 (pyAbs off / 1000000 % 3600 / 60)
      ++ (if pyAbs off / 1000000 % 60 ≠ 0 ∨ pyAbs off % 1000000 ≠ 0 then
            pad2 (pyAbs off / 1000000 % 60) else "")
      ++ (if pyAbs off % 1000000 ≠ 0 then "." ++ pad6 (pyAbs off % 1000000) else "")

/-- Full weekday name, `strftime("%A")`; day index 0 is Monday. -/
def weekdayName (i : ℤ) : String :=
  if i = 0 then "Monday" else if i = 1 then "Tuesday" else if i = 2 then "Wednesday"
  else if i = 3 then "Thursday" else if i = 4 then "Friday"
  else if i = 5 then "Saturday" else "Sunday"

/-- Full month name, `strftime("%B")`. -/
def monthName (m : ℤ) : String :=
  if m = 1 then "January" else if m = 2 then "February" else if m = 3 then "March"
  else if m = 4 then "April" else if m = 5 then "May" else if m = 6 then "June"
  else if m = 7 then "July" else if m = 8 then "August" else if m = 9 then "September"
  else if m = 10 then "October" else if m = 11 then "November" else "December"

/-- `strftime("%A, %B %d, %Y at %I:%M:%S %p %Z")` (the `readable` layout). -/
def readableFmt (t : PyDatetime) : String :=
  weekdayName ((toOrdinalZ t.year t.month t.day - 1) % 7) ++ ", "
    ++ monthName t.month ++ " " ++ pad2 t.day ++ ", " ++ pad4 t.year ++ " at "
    ++ pad2 (if t.hour % 12 = 0 then 12 else t.hour % 12) ++ ":" ++ pad2 t.minute ++ ":"
    ++ pad2 t.second ++ " " ++ (if t.hour < 12 then "AM" else "PM") ++ " " ++ t.tzname

/-- The conversion step of `get_current_datetime` (source lines 134-144):
wall clock to `target_time` in the requested zone. -/
def targetTime (db : String → Option PytzZone) (nowE : ℤ)
    (timezone_name : String) : Option PyDatetime :=
  if pyUpper timezone_name = "UTC" then some (fromEpochMicros nowE 0 "UTC")
  else
    match db timezone_name with
    | none => none
    | some z => some (fromEpochMicros nowE (offsetInfoAt z nowE).1 (offsetInfoAt z nowE).2)

/-- The format dispatch of `get_current_datetime` (source lines 147-155). -/
def formattedTime (t : PyDatetime) (format_type : String) : String :=
  if pyLower format_type = "iso" then isoFmt t
  else if pyLower format_type = "readable" then readableFmt t
  else if pyLower format_type = "timestamp" then
    toString (pyIntOfMicros (naiveMicros t - t.tzoff.getD 0))
  else fmtDateTimeSpace t

/-- The tool `get_current_datetime` (source lines 121-166). -/
def get_current_datetime (db : String → Option PytzZone) (nowE : ℤ)
    (timezone_name format_type : String) : String :=
  match targetTime db nowE timezone_name with
  | none => unknownTzMsg timezone_name
  | some t =>
    "🕐 **Current DateTime**\n"
      ++ "**Timezone:** " ++ timezone_name ++ "\n"
      ++ "**Format:** " ++ format_type ++ "\n"
      ++ "**DateTime:** " ++ formattedTime t format_type ++ "\n"
      ++ "**UTC Offset:** " ++ strftimeZfmt t ++ "\n"

/-!
Specification-side definitions (written from the words of the spec, to be
compared with the behaviour of the source model above).

The accepted textual shapes of section 4.1 of the spec:
`YYYY-MM-DD HH:MM:SS` and `YYYY-MM-DDTHH:MM:SS`, the latter optionally
suffixed with `Z` or an explicit numeric offset (read as the ISO `±HH:MM`
form). A literal matching a shape is understood to denote a real calendar
datetime, so the fields must lie in the ranges the `datetime` constructor
accepts (`validYMDHMS`).
-/

/-- The spec shape `YYYY-MM-DD HH:MM:SS`: zero-padded two-digit fields, a
four-digit year and valid calendar values. -/
def specMatchesSpaceP (s : String) : Prop :=
  ∃ y1 y2 y3 y4 a1 a2 b1 b2 h1 h2 n1 n2 s1 s2 : Char,
    s.data = [y1, y2, y3, y4, '-', a1, a2, '-', b1, b2, ' ',
              h1, h2, ':', n1, n2, ':', s1, s2]
    ∧ y1.isDigit = true ∧ y2.isDigit = true ∧ y3.isDigit = true ∧ y4.isDigit = true
    ∧ a1.isDigit = true ∧ a2.isDigit = true ∧ b1.isDigit = true ∧ b2.isDigit = true
    ∧ h1.isDigit = true ∧ h2.isDigit = true ∧ n1.isDigit = true ∧ n2.isDigit = true
    ∧ s1.isDigit = true ∧ s2.isDigit = true
    ∧ validYMDHMS (val4 y1 y2 y3 y4) (val2 a1 a2) (val2 b1 b2)
        (val2 h1 h2) (val2 n1 n2) (val2 s1 s2)

/-- The spec shape `YYYY-MM-DDTHH:MM:SS` with no suffix. -/
def specIsoNoSuffixP (s : String) : Prop :=
  ∃ y1 y2 y3 y4 a1 a2 b1 b2 h1 h2 n1 n2 s1 s2 : Char,
    s.data = [y1, y2, y3, y4, '-', a1, a2, '-', b1, b2, 'T',
              h1, h2, ':', n1, n2, ':', s1, s2]
    ∧ y1.isDigit = true ∧ y2.isDigit = true ∧ y3.isDigit = true ∧ y4.isDigit = true
    ∧ a1.isDigit = true ∧ a2.isDigit = true ∧ b1.isDigit = true ∧ b2.isDigit = true
    ∧ h1.isDigit = true ∧ h2.isDigit = true ∧ n1.isDigit = true ∧ n2.isDigit = true
    ∧ s1.isDigit = true ∧ s2.isDigit = true
    ∧ validYMDHMS (val4 y1 y2 y3 y4) (val2 a1 a2) (val2 b1 b2)
        (val2 h1 h2) (val2 n1 n2) (val2 s1 s2)

/-- The spec shape `YYYY-MM-DDTHH:MM:SSZ`. -/
def specIsoZP (s : String) : Prop :=
  ∃ y1 y2 y3 y4 a1 a2 b1 b2 h1 h2 n1 n2 s1 s2 : Char,
    s.data = [y1, y2, y3, y4, '-', a1, a2, '-', b1, b2, 'T',
              h1, h2, ':', n1, n2, ':', s1, s2, 'Z']
    ∧ y1.isDigit = true ∧ y2.isDigit = true ∧ y3.isDigit = true ∧ y4.isDigit = true
    ∧ a1.isDigit = true ∧ a2.isDigit = true ∧ b1.isDigit = true ∧ b2.isDigit = true
    ∧ h1.isDigit = true ∧ h2.isDigit = true ∧ n1.isDigit = true ∧ n2.isDigit = true
    ∧ s1.isDigit = true ∧ s2.isDigit = true
    ∧ validYMDHMS (val4 y1 y2 y3 y4) (val2 a1 a2) (val2 b1 b2)
        (val2 h1 h2) (val2 n1 n2) (val2 s1 s2)

/-- The spec shape `YYYY-MM-DDTHH:MM:SS±HH:MM` (explicit numeric offset). -/
def specIsoOffsetP (s : String) : Prop :=
  ∃ y1 y2 y3 y4 a1 a2 b1 b2 h1 h2 n1 n2 s1 s2 sg o1 o2 o3 o4 : Char,
    s.data = [y1, y2, y3, y4, '-', a1, a2, '-', b1, b2, 'T',
              h1, h2, ':', n1, n2, ':', s1, s2, sg, o1, o2, ':', o3, o4]
    ∧ y1.isDigit = true ∧ y2.isDigit = true ∧ y3.isDigit = true ∧ y4.isDigit = true
    ∧ a1.isDigit = true ∧ a2.isDigit = true ∧ b1.isDigit = true ∧ b2.isDigit = true
    ∧ h1.isDigit = true ∧ h2.isDigit = true ∧ n1.isDigit = true ∧ n2.isDigit = true
    ∧ s1.isDigit = true ∧ s2.isDigit = true
    ∧ (sg = '+' ∨ sg = '-')
    ∧ o1.isDigit = true ∧ o2.isDigit = true ∧ o3.isDigit = true ∧ o4.isDigit = true
    ∧ val2 o1 o2 ≤ 23 ∧ val2 o3 o4 ≤ 59
    ∧ validYMDHMS (val4 y1 y2 y3 y4) (val2 a1 a2) (val2 b1 b2)
        (val2 h1 h2) (val2 n1 n2) (val2 s1 s2)

/-- Any of the spec ISO shapes. -/
def specMatchesIsoP (s : String) : Prop :=
  specIsoNoSuffixP s ∨ specIsoZP s ∨ specIsoOffsetP s

/-- The two most significant units the spec selects for the Summary line
(section 4.3 precedence), with values. -/
def specSummaryUnits (days hours minutes seconds : ℤ) : List (ℤ × String) :=
  if 0 < days then [(days, "days"), (hours, "hours"), (minutes, "minutes")]
  else if 0 < hours then [(hours, "hours"), (minutes, "minutes")]
  else if 0 < minutes then [(minutes, "minutes"), (seconds, "seconds")]
  else [(seconds, "seconds")]

/-- Comma-separated rendering of a unit list. -/
def renderUnits : List (ℤ × String) → String
  | [] => ""
  | [(v, u)] => toString v ++ " " ++ u
  | (v, u) :: rest => toString v ++ " " ++ u ++ ", " ++ renderUnits rest

/-- First character of an output string (the failure marker position). -/
def leadChar (s : String) : Option Char := s.data.head?

/-- Whether an output contains the remediation-hint marker. -/
def hasHint (s : String) : Bool := hasChar '💡' s.data

/-- The empty timezone database (no identifier resolves). -/
def emptyTzDb : String → Option PytzZone := fun _ => none

/-- Convenience: the UTC instant `y-mo-d h:00:00Z` in epoch microseconds. -/
def utcMicros (y mo d h : ℤ) : ℤ := (epochDays y mo d * 86400 + h * 3600) * 1000000

/-- Model of `pytz.timezone("US/Eastern")` with the IANA transitions around
2024-2026: the unlocalized object reports local mean time `LMT -04:56`
(pytz stores `-1 day, 68640 s`), and the transitions are
EST (`-05:00`) from 2024-11-03 06:00 UTC, EDT (`-04:00`) from
2025-03-09 07:00 UTC, and EST again from 2025-11-02 06:00 UTC. -/
def usEastern : PytzZone :=
  { lmtOff := -17760000000
    lmtAbbrev := "LMT"
    transitions :=
      [(utcMicros 2024 11 3 6, -18000000000, "EST"),
       (utcMicros 2025 3 9 7, -14400000000, "EDT"),
       (utcMicros 2025 11 2 6, -18000000000, "EST")] }

/-- A database resolving exactly `US/Eastern`. -/
def sampleDb : String → Option PytzZone :=
  fun n => if n = "US/Eastern" then some usEastern else none

/-- A sample naive datetime used by witnesses. -/
def sampleNaive : PyDatetime :=
  { year := 2025, month := 9, day := 9, hour := 10, minute := 0, second := 0,
    micro := 0, tzoff := none, tzname := "" }

/-- A sample aware datetime used by witnesses. -/
def sampleAwareA : PyDatetime :=
  { year := 2025, month := 9, day := 9, hour := 10, minute := 0, second := 0,
    micro := 0, tzoff := some 0, tzname := "UTC" }

/-- A second sample aware datetime, 4 hours 30 minutes later. -/
def sampleAwareB : PyDatetime :=
  { year := 2025, month := 9, day := 9, hour := 14, minute := 30, second := 0,
    micro := 0, tzoff := some 0, tzname := "UTC" }

/-- Exact rational second count of a microsecond total (the float
`total_seconds()` value, idealized as exact). -/
def qSeconds (tmic : ℤ) : ℚ := (tmic : ℚ) / 1000000

/-- Python `%` on exact real values with positive modulus:
`x - y * floor(x / y)`. -/
def qMod (x y : ℚ) : ℚ := x - y * ⌊x / y⌋

theorem yearFromDays_spec (Z : ℤ) :
    daysBeforeYearZ (yearFromDays Z) ≤ Z ∧ Z < daysBeforeYearZ (yearFromDays Z + 1) := by
  unfold yearFromDays
  by_cases h : daysBeforeYearZ ((400 * Z) / 146097 + 2) ≤ Z
  · rw [if_pos h]
    refine ⟨h, ?_⟩
    have h1 : (400 * Z) / 146097 + 2 + 1 - 1 = (400 * Z) / 146097 + 2 := by ring
    unfold daysBeforeYearZ
    rw [h1]
    omega
  · rw [if_neg h]
    constructor
    · have h1 : (400 * Z) / 146097 + 1 - 1 = (400 * Z) / 146097 := by ring
      unfold daysBeforeYearZ
      rw [h1]
      omega
    · have h1 : (400 * Z) / 146097 + 1 + 1 = (400 * Z) / 146097 + 2 := by ring
      rw [h1]
      omega

theorem mdFromDoy_spec (leap doy : ℤ) : ∀ m dd, mdFromDoy leap doy = (m, dd) →
    monthTable m + (if 2 < m then leap else 0) + dd = doy + 1 := by
  intro m dd h
  unfold mdFromDoy at h
  by_cases c1 : doy < 31
  · rw [if_pos c1] at h; injection h with e1 e2; subst e1; subst e2; norm_num [monthTable]
  · rw [if_neg c1] at h
    by_cases c2 : doy < 59 + leap
    · rw [if_pos c2] at h; injection h with e1 e2; subst e1; subst e2
      norm_num [monthTable] <;> omega
    · rw [if_neg c2] at h
      by_cases c3 : doy < 90 + leap
      · rw [if_pos c3] at h; injection h with e1 e2; subst e1; subst e2
        norm_num [monthTable] <;> omega
      · rw [if_neg c3] at h
        by_cases c4 : doy < 120 + leap
        · rw [if_pos c4] at h; injection h with e1 e2; subst e1; subst e2
          norm_num [monthTable] <;> omega
        · rw [if_neg c4] at h
          by_cases c5 : doy < 151 + leap
          · rw [if_pos c5] at h; injection h with e1 e2; subst e1; subst e2
            norm_num [monthTable] <;> omega
          · rw [if_neg c5] at h
            by_cases c6 : doy < 181 + leap
            · rw [if_pos c6] at h; injection h with e1 e2; subst e1; subst e2
              norm_num [monthTable] <;> omega
            · rw [if_neg c6] at h
              by_cases c7 : doy < 212 + leap
              · rw [if_pos c7] at h; injection h with e1 e2; subst e1; subst e2
                norm_num [monthTable] <;> omega
              · rw [if_neg c7] at h
                by_cases c8 : doy < 243 + leap
                · rw [if_pos c8] at h; injection h with e1 e2; subst e1; subst e2
                  norm_num [monthTable] <;> omega
                · rw [if_neg c8] at h
                  by_cases c9 : doy < 273 + leap
                  · rw [if_pos c9] at h; injection h with e1 e2; subst e1; subst e2
                    norm_num [monthTable] <;> omega
                  · rw [if_neg c9] at h
                    by_cases c10 : doy < 304 + leap
                    · rw [if_pos c10] at h; injection h with e1 e2; subst e1; subst e2
                      norm_num [monthTable] <;> omega
                    · rw [if_neg c10] at h
                      by_cases c11 : doy < 334 + leap
                      · rw [if_pos c11] at h; injection h with e1 e2; subst e1; subst e2
                        norm_num [monthTable] <;> omega
                      · rw [if_neg c11] at h
                        injection h with e1 e2; subst e1; subst e2
                        norm_num [monthTable] <;> omega

/-- Arithmetic characterisation of `isLeapZ`. -/
theorem isLeapZ_iff (y : ℤ) :
    isLeapZ y = true ↔ ((y % 4 = 0 ∧ y % 100 ≠ 0) ∨ y % 400 = 0) := by
  unfold isLeapZ
  simp [Bool.and_eq_true, Bool.or_eq_true, beq_iff_eq, bne_iff_ne]

/-- Days in a year, as the difference of consecutive `daysBeforeYearZ`. -/
theorem daysBeforeYearZ_succ (y : ℤ) :
    daysBeforeYearZ (y + 1) = daysBeforeYearZ y + (if isLeapZ y then 366 else 365) := by
  have e : (y + 1 : ℤ) - 1 = y := by ring
  by_cases hL : isLeapZ y = true
  · rw [if_pos hL]
    rw [isLeapZ_iff] at hL
    unfold daysBeforeYearZ
    rw [e]
    omega
  · rw [if_neg hL]
    rw [isLeapZ_iff] at hL
    unfold daysBeforeYearZ
    rw [e]
    omega

/-- The epoch-to-civil conversion inverts `epochDays`. -/
theorem epochDays_civilFromDays (d : ℤ) :
    epochDays (civilFromDays d).1 (civilFromDays d).2.1 (civilFromDays d).2.2 = d := by
  unfold civilFromDays
  obtain ⟨h1, h2⟩ := yearFromDays_spec (d + 719162)
  set y := yearFromDays (d + 719162) with hy
  obtain ⟨m, dd, hmd⟩ : ∃ m dd,
      mdFromDoy (if isLeapZ y then 1 else 0) (d + 719162 - daysBeforeYearZ y) = (m, dd) :=
    ⟨_, _, rfl⟩
  have hspec := mdFromDoy_spec _ _ _ _ hmd
  rw [hmd]
  dsimp only
  unfold epochDays toOrdinalZ daysBeforeMonthZ
  have hif : (if 2 < m ∧ isLeapZ y then 1 else 0)
      = (if 2 < m then (if isLeapZ y then (1 : ℤ) else 0) else 0) := by
    by_cases hL : isLeapZ y <;> by_cases hm : 2 < m <;> simp [hL, hm]
  rw [hif]
  by_cases hL : isLeapZ y <;> simp only [hL, if_true, if_false] at hspec ⊢ <;> omega

/-- Key exactness property: the fields built by `fromEpochMicros` denote the
instant `e` again (`datetime.timestamp()` returns the original epoch value,
whatever display offset was used). -/
theorem naiveMicros_fromEpochMicros (e off : ℤ) (name : String) :
    naiveMicros (fromEpochMicros e off name) = e + off := by
  unfold naiveMicros fromEpochMicros
  dsimp only
  have h := epochDays_civilFromDays ((e + off) / 86400000000)
  omega


theorem floor_qSeconds (t : ℤ) : ⌊qSeconds t⌋ = t / 1000000 := by
  unfold qSeconds
  rw [show (1000000 : ℚ) = ((1000000 : ℕ) : ℚ) by norm_num]
  rw [Rat.floor_intCast_div_natCast t 1000000]
  norm_num

theorem floor_qSeconds_div (t : ℤ) (k : ℕ) :
    ⌊qSeconds t / (k : ℚ)⌋ = t / ((k : ℤ) * 1000000) := by
  unfold qSeconds
  rw [div_div]
  rw [show ((1000000 : ℚ) * (k : ℚ)) = (((1000000 * k : ℕ)) : ℚ) by push_cast; ring]
  rw [Rat.floor_intCast_div_natCast t (1000000 * k)]
  push_cast
  ring_nf

theorem qMod_qSeconds (t : ℤ) (k : ℕ) :
    qMod (qSeconds t) (k : ℚ) = qSeconds (t % ((k : ℤ) * 1000000)) := by
  unfold qMod
  rw [floor_qSeconds_div t k]
  unfold qSeconds
  rw [Int.emod_def]
  push_cast
  field_simp
  ring

/-- C2. For every pair of successfully resolved instants, the breakdown of
`calculate_time_difference` is the floor-division decomposition of the
absolute difference and recomposes exactly to its floored second count:
`days*86400 + hours*3600 + minutes*60 + seconds = floor(total_seconds)`,
with `days = floor(total/86400)`, `hours = floor((total mod 86400)/3600)`,
`minutes = floor((total mod 3600)/60)`, `seconds = floor(total mod 60)`,
the sub-second remainder truncated. -/
theorem C2_breakdown_lossless (a b : PyDatetime) (delta : ℤ)
    ( _hsub : pySub b a = some delta) :
    bdDays (pyAbs delta) = ⌊qSeconds (pyAbs delta) / 86400⌋
    ∧ bdHours (pyAbs delta) = ⌊qMod (qSeconds (pyAbs delta)) 86400 / 3600⌋
    ∧ bdMinutes (pyAbs delta) = ⌊qMod (qSeconds (pyAbs delta)) 3600 / 60⌋
    ∧ bdSeconds (pyAbs delta) = ⌊qMod (qSeconds (pyAbs delta)) 60⌋
    ∧ bdDays (pyAbs delta) * 86400 + bdHours (pyAbs delta) * 3600
        + bdMinutes (pyAbs delta) * 60 + bdSeconds (pyAbs delta)
      = ⌊qSeconds (pyAbs delta)⌋ := by
  set t := pyAbs delta with ht
  refine ⟨?_, ?_, ?_, ?_, ?_⟩
  · rw [show ((86400 : ℚ)) = ((86400 : ℕ) : ℚ) by norm_num, floor_qSeconds_div]
    unfold bdDays
    norm_num
  · rw [show ((86400 : ℚ)) = ((86400 : ℕ) : ℚ) by norm_num, qMod_qSeconds]
    rw [show ((3600 : ℚ)) = ((3600 : ℕ) : ℚ) by norm_num, floor_qSeconds_div]
    unfold bdHours
    norm_num
  · rw [show ((3600 : ℚ)) = ((3600 : ℕ) : ℚ) by norm_num, qMod_qSeconds]
    rw [show ((60 : ℚ)) = ((60 : ℕ) : ℚ) by norm_num, floor_qSeconds_div]
    unfold bdMinutes
    norm_num
  · rw [show ((60 : ℚ)) = ((60 : ℕ) : ℚ) by norm_num, qMod_qSeconds]
    rw [show qSeconds (t % ((60 : ℕ) * 1000000 : ℤ)) = qSeconds (t % 60000000) by norm_num]
    rw [floor_qSeconds]
    unfold bdSeconds
    norm_num
  · rw [floor_qSeconds t]
    unfold bdDays bdHours bdMinutes bdSeconds
    omega

/-- Witness for C2 at the difference of the test-suite instants
(4 hours 30 minutes = 16200 seconds). -/
theorem C2_breakdown_lossless_witness :
    pySub sampleAwareB sampleAwareA = some 16200000000
    ∧ (bdDays (pyAbs 16200000000) * 86400 + bdHours (pyAbs 16200000000) * 3600
        + bdMinutes (pyAbs 16200000000) * 60 + bdSeconds (pyAbs 16200000000)
      = ⌊qSeconds (pyAbs 16200000000)⌋) :=
  ⟨by decide, (C2_breakdown_lossless sampleAwareA sampleAwareB 16200000000 (by decide)).2.2.2.2⟩

/-- C3. The reported direction is `later` exactly when the signed
difference is nonnegative, the decomposed magnitude is always the absolute
difference, and a zero difference yields the all-zero breakdown with
direction `later`. -/
theorem C3_direction_abs (a b : PyDatetime) (delta : ℤ)
    (hsub : pySub b a = some delta) :
    (pyDirection delta = "later" ↔ 0 ≤ delta)
    ∧ pyAbs delta = |delta|
    ∧ (delta = 0 →
        bdDays (pyAbs delta) = 0 ∧ bdHours (pyAbs delta) = 0
        ∧ bdMinutes (pyAbs delta) = 0 ∧ bdSeconds (pyAbs delta) = 0
        ∧ pyDirection delta = "later") := by
  refine ⟨?_, ?_, ?_⟩
  · unfold pyDirection
    by_cases h : 0 ≤ delta
    · rw [if_pos h]
      simp [h]
    · rw [if_neg h]
      constructor
      · intro he
        exact absurd he (by decide)
      · intro h0
        exact absurd h0 h
  · unfold pyAbs
    by_cases h : delta < 0
    · rw [if_pos h, abs_of_neg h]
    · rw [if_neg h, abs_of_nonneg (by omega)]
  · intro h0
    subst h0
    refine ⟨by decide, by decide, by decide, by decide, by decide⟩

/-- Witness for C3 at equal instants (zero difference). -/
theorem C3_direction_abs_witness :
    pySub sampleAwareA sampleAwareA = some 0
    ∧ ((pyDirection 0 = "later" ↔ (0 : ℤ) ≤ 0)
        ∧ pyAbs 0 = |(0 : ℤ)|
        ∧ ((0 : ℤ) = 0 →
            bdDays (pyAbs 0) = 0 ∧ bdHours (pyAbs 0) = 0
            ∧ bdMinutes (pyAbs 0) = 0 ∧ bdSeconds (pyAbs 0) = 0
            ∧ pyDirection 0 = "later")) :=
  ⟨by decide, C3_direction_abs sampleAwareA sampleAwareA 0 (by decide)⟩

/-- C4. Swapping the start and end arguments leaves the magnitude and the
breakdown unchanged and flips the direction word, except that a zero
difference reports `later` in both orders. -/
theorem C4_swap_symmetry (db : String → Option PytzZone) (nowE : ℤ)
    (s e tzn : String) (tz : TZ) (a b : PyDatetime) (d1 d2 : ℤ)
    (hptz : parse_tz db tzn = some tz) (he : e ≠ "") (hs : s ≠ "")
    (hpa : parse_dt tz s = some a) (hpb : parse_dt tz e = some b)
    (h1 : pySub b a = some d1) (h2 : pySub a b = some d2) :
    calculate_time_difference db nowE s e tzn = renderSuccess a b tzn d1
    ∧ calculate_time_difference db nowE e s tzn = renderSuccess b a tzn d2
    ∧ pyAbs d1 = pyAbs d2
    ∧ (d1 = 0 → pyDirection d1 = "later" ∧ pyDirection d2 = "later")
    ∧ (d1 ≠ 0 →
        (pyDirection d1 = "later" ∧ pyDirection d2 = "earlier")
        ∨ (pyDirection d1 = "earlier" ∧ pyDirection d2 = "later")) := by
  have hneg : d2 = -d1 := by
    unfold pySub at h1 h2
    cases ha : a.tzoff <;> cases hb : b.tzoff <;> rw [ha, hb] at h1 h2 <;>
      simp at h1 h2 <;> omega
  refine ⟨?_, ?_, ?_, ?_, ?_⟩
  · unfold calculate_time_difference
    simp only [hptz, hpa, if_neg he, hpb, h1]
  · unfold calculate_time_difference
    simp only [hptz, hpb, if_neg hs, hpa, h2]
  · unfold pyAbs
    omega
  · intro h0
    subst h0
    rw [show d2 = 0 by omega]
    exact ⟨rfl, rfl⟩
  · intro hne
    unfold pyDirection
    by_cases hpos : 0 ≤ d1
    · left
      rw [if_pos hpos, if_neg (by omega)]
      exact ⟨rfl, rfl⟩
    · right
      rw [if_neg hpos, if_pos (by omega)]
      exact ⟨rfl, rfl⟩

/-- Witness for C4 at the test-suite inputs. -/
theorem C4_swap_symmetry_witness :
    calculate_time_difference emptyTzDb 0
        "2025-09-09 10:00:00" "2025-09-09 14:30:00" "UTC"
      = renderSuccess sampleAwareA sampleAwareB "UTC" 16200000000
    ∧ calculate_time_difference emptyTzDb 0
        "2025-09-09 14:30:00" "2025-09-09 10:00:00" "UTC"
      = renderSuccess sampleAwareB sampleAwareA "UTC" (-16200000000)
    ∧ pyAbs 16200000000 = pyAbs (-16200000000) :=
  ⟨(C4_swap_symmetry emptyTzDb 0 "2025-09-09 10:00:00" "2025-09-09 14:30:00" "UTC"
      TZ.utc sampleAwareA sampleAwareB 16200000000 (-16200000000)
      (by decide) (by decide) (by decide) (by decide) (by decide) (by decide) (by decide)).1,
   (C4_swap_symmetry emptyTzDb 0 "2025-09-09 10:00:00" "2025-09-09 14:30:00" "UTC"
      TZ.utc sampleAwareA sampleAwareB 16200000000 (-16200000000)
      (by decide) (by decide) (by decide) (by decide) (by decide) (by decide) (by decide)).2.1,
   (C4_swap_symmetry emptyTzDb 0 "2025-09-09 10:00:00" "2025-09-09 14:30:00" "UTC"
      TZ.utc sampleAwareA sampleAwareB 16200000000 (-16200000000)
      (by decide) (by decide) (by decide) (by decide) (by decide) (by decide) (by decide)).2.2.1⟩

/-- C5. The Summary line shows exactly the units selected by the spec
precedence (days branch shows days, hours, minutes; else hours branch shows
hours, minutes; else minutes branch shows minutes, seconds; else seconds
alone), with the direction word appended in every case; and the success
text of `calculate_time_difference` ends with that Summary line. -/
theorem C5_summary_precedence :
    (∀ (days hours minutes seconds : ℤ) (direction : String),
      summaryLine days hours minutes seconds direction
        = "**Summary:** " ++ renderUnits (specSummaryUnits days hours minutes seconds)
            ++ " (" ++ direction ++ ")\n")
    ∧ (∀ (a b : PyDatetime) (tzn : String) (delta : ℤ),
      ∃ p, renderSuccess a b tzn delta
        = p ++ summaryLine (bdDays (pyAbs delta)) (bdHours (pyAbs delta))
            (bdMinutes (pyAbs delta)) (bdSeconds (pyAbs delta)) (pyDirection delta)) := by
  constructor
  · intro days hours minutes seconds direction
    unfold summaryLine specSummaryUnits
    by_cases hd : 0 < days
    · rw [if_pos hd, if_pos hd]
      simp only [renderUnits]
      apply String.ext
      simp only [String.data_append]
      simp [List.append_assoc]
    · rw [if_neg hd, if_neg hd]
      by_cases hh : 0 < hours
      · rw [if_pos hh, if_pos hh]
        simp only [renderUnits]
        apply String.ext
        simp only [String.data_append]
        simp [List.append_assoc]
      · rw [if_neg hh, if_neg hh]
        by_cases hm : 0 < minutes
        · rw [if_pos hm, if_pos hm]
          simp only [renderUnits]
          apply String.ext
          simp only [String.data_append]
          simp [List.append_assoc]
        · rw [if_neg hm, if_neg hm]
          simp only [renderUnits]
          apply String.ext
          simp only [String.data_append]
          simp [List.append_assoc]
  · intro a b tzn delta
    exact ⟨_, rfl⟩

theorem leadChar_append (s t : String) (c : Char) (h : leadChar s = some c) :
    leadChar (s ++ t) = some c := by
  unfold leadChar at *
  rw [String.data_append]
  cases hd : s.data with
  | nil => rw [hd] at h; simp at h
  | cons x xs =>
    rw [hd] at h
    simp only [List.head?] at h
    simp [List.cons_append, List.head?, h]

theorem leadChar_unknownTzMsg (x : String) : leadChar (unknownTzMsg x) = some '❌' := by
  unfold unknownTzMsg
  apply leadChar_append
  apply leadChar_append
  decide

theorem leadChar_invalidStartMsg (x : String) : leadChar (invalidStartMsg x) = some '❌' := by
  unfold invalidStartMsg
  apply leadChar_append
  apply leadChar_append
  decide

theorem leadChar_invalidEndMsg (x : String) : leadChar (invalidEndMsg x) = some '❌' := by
  unfold invalidEndMsg
  apply leadChar_append
  apply leadChar_append
  decide

theorem leadChar_renderSuccess (a b : PyDatetime) (tzn : String) (delta : ℤ) :
    leadChar (renderSuccess a b tzn delta) = some '⏱' := by
  unfold renderSuccess
  repeat apply leadChar_append
  decide

theorem hasChar_append_true_right (c : Char) (l1 l2 : List Char)
    (h : hasChar c l2 = true) : hasChar c (l1 ++ l2) = true := by
  induction l1 with
  | nil => simpa using h
  | cons x xs ih => simp [hasChar, ih]

theorem hasHint_unknownTzMsg (x : String) : hasHint (unknownTzMsg x) = true := by
  unfold hasHint unknownTzMsg
  rw [String.data_append, String.data_append]
  apply hasChar_append_true_right
  decide

theorem hasHint_invalidStartMsg (x : String) : hasHint (invalidStartMsg x) = true := by
  unfold hasHint invalidStartMsg
  rw [String.data_append, String.data_append]
  apply hasChar_append_true_right
  decide

theorem hasHint_invalidEndMsg (x : String) : hasHint (invalidEndMsg x) = true := by
  unfold hasHint invalidEndMsg
  rw [String.data_append, String.data_append]
  apply hasChar_append_true_right
  decide

/-- C7 (amended). Both tools are total string-valued functions of their
inputs (no exception escapes the model); every output either leads with the
success marker or leads with the failure marker `❌`, and every failure
output carries the `💡` remediation hint except the one generic
`UnexpectedFailure` text of `calculate_time_difference`, which carries the
underlying cause text instead of a hint. -/
theorem C7_failure_marking :
    (∀ (db : String → Option PytzZone) (nowE : ℤ) (s e tzn : String),
      leadChar (calculate_time_difference db nowE s e tzn) = some '⏱'
      ∨ (leadChar (calculate_time_difference db nowE s e tzn) = some '❌'
          ∧ (hasHint (calculate_time_difference db nowE s e tzn) = true
             ∨ calculate_time_difference db nowE s e tzn = calcGenericError)))
    ∧ (∀ (db : String → Option PytzZone) (nowE : ℤ) (tzn fmt : String),
      leadChar (get_current_datetime db nowE tzn fmt) = some '🕐'
      ∨ (leadChar (get_current_datetime db nowE tzn fmt) = some '❌'
          ∧ hasHint (get_current_datetime db nowE tzn fmt) = true)) := by
  constructor
  · intro db nowE s e tzn
    cases hptz : parse_tz db tzn with
    | none =>
      have hc : calculate_time_difference db nowE s e tzn = unknownTzMsg tzn := by
        unfold calculate_time_difference
        simp only [hptz]
      rw [hc]
      exact Or.inr ⟨leadChar_unknownTzMsg tzn, Or.inl (hasHint_unknownTzMsg tzn)⟩
    | some tz =>
      cases hpa : parse_dt tz s with
      | none =>
        have hc : calculate_time_difference db nowE s e tzn = invalidStartMsg s := by
          unfold calculate_time_difference
          simp only [hptz, hpa]
        rw [hc]
        exact Or.inr ⟨leadChar_invalidStartMsg s, Or.inl (hasHint_invalidStartMsg s)⟩
      | some a =>
        cases hpe : (if e = "" then some (pyNow tz nowE) else parse_dt tz e) with
        | none =>
          have hc : calculate_time_difference db nowE s e tzn = invalidEndMsg e := by
            unfold calculate_time_difference
            simp only [hptz, hpa, hpe]
          rw [hc]
          exact Or.inr ⟨leadChar_invalidEndMsg e, Or.inl (hasHint_invalidEndMsg e)⟩
        | some b =>
          cases hsub : pySub b a with
          | none =>
            have hc : calculate_time_difference db nowE s e tzn = calcGenericError := by
              unfold calculate_time_difference
              simp only [hptz, hpa, hpe, hsub]
            rw [hc]
            exact Or.inr ⟨by decide, Or.inr rfl⟩
          | some delta =>
            have hc : calculate_time_difference db nowE s e tzn
                = renderSuccess a b tzn delta := by
              unfold calculate_time_difference
              simp only [hptz, hpa, hpe, hsub]
            rw [hc]
            exact Or.inl (leadChar_renderSuccess a b tzn delta)
  · intro db nowE tzn fmt
    cases htt : targetTime db nowE tzn with
    | none =>
      have hc : get_current_datetime db nowE tzn fmt = unknownTzMsg tzn := by
        unfold get_current_datetime
        simp only [htt]
      rw [hc]
      exact Or.inr ⟨leadChar_unknownTzMsg tzn, hasHint_unknownTzMsg tzn⟩
    | some t =>
      have hc : get_current_datetime db nowE tzn fmt
          = "🕐 **Current DateTime**\n"
            ++ "**Timezone:** " ++ tzn ++ "\n"
            ++ "**Format:** " ++ fmt ++ "\n"
            ++ "**DateTime:** " ++ formattedTime t fmt ++ "\n"
            ++ "**UTC Offset:** " ++ strftimeZfmt t ++ "\n" := by
        unfold get_current_datetime
        simp only [htt]
      rw [hc]
      refine Or.inl ?_
      repeat apply leadChar_append
      decide

/-- C7 counterexample: a reachable failure output of
`calculate_time_difference` (the aware-minus-naive `TypeError` caught by
the blanket handler) leads with the failure marker but contains no `💡`
remediation hint, refuting the claim that every failure return includes the
error kind of remediation hint. -/
theorem C7_failure_marking_counterexample :
    leadChar (calculate_time_difference emptyTzDb 0
        "2025-09-09T10:00:00" "2025-09-09 11:00:00" "UTC") = some '❌'
    ∧ hasHint (calculate_time_difference emptyTzDb 0
        "2025-09-09T10:00:00" "2025-09-09 11:00:00" "UTC") = false := by
  constructor
  · decide
  · decide

/-- C8 (amended). Whenever the start literal is rejected by the parsing
step (with the zone resolved), the call returns exactly the start
InvalidFormat failure, identically for every end argument: end parsing and
the difference computation are never reached and no partial result is
produced. -/
theorem C8_invalid_start_aborts (db : String → Option PytzZone) (nowE : ℤ)
    (s e1 e2 tzn : String) (tz : TZ)
    (hptz : parse_tz db tzn = some tz) (hpa : parse_dt tz s = none) :
    calculate_time_difference db nowE s e1 tzn = invalidStartMsg s
    ∧ calculate_time_difference db nowE s e2 tzn = invalidStartMsg s := by
  constructor
  · unfold calculate_time_difference
    simp only [hptz, hpa]
  · unfold calculate_time_difference
    simp only [hptz, hpa]

/-- Witness for C8: the test-suite invalid literal, with two different end
arguments. -/
theorem C8_invalid_start_aborts_witness :
    calculate_time_difference emptyTzDb 0 "invalid-date" "" "UTC"
      = invalidStartMsg "invalid-date"
    ∧ calculate_time_difference emptyTzDb 0 "invalid-date" "2025-09-09 14:30:00" "UTC"
      = invalidStartMsg "invalid-date" :=
  C8_invalid_start_aborts emptyTzDb 0 "invalid-date" "" "2025-09-09 14:30:00" "UTC"
    TZ.utc (by decide) (by decide)

/-- C8 counterexample: `strptime` is lenient, so a non-empty literal that
matches neither accepted spec shape (month, day and hour not zero-padded)
is nevertheless parsed successfully, and the call does not return the start
InvalidFormat failure. -/
theorem C8_invalid_start_aborts_counterexample :
    ¬ specMatchesSpaceP "2025-9-9 1:02:03"
    ∧ ¬ specMatchesIsoP "2025-9-9 1:02:03"
    ∧ "2025-9-9 1:02:03" ≠ ""
    ∧ calculate_time_difference emptyTzDb 0 "2025-9-9 1:02:03" "2025-09-09 05:00:00" "UTC"
        ≠ invalidStartMsg "2025-9-9 1:02:03" := by
  refine ⟨?_, ?_, by decide, by decide⟩
  · rintro ⟨q1, q2, q3, q4, q5, q6, q7, q8, q9, qA, qB, qC, qD, qE, hdata, -⟩
    have hl := congrArg List.length hdata
    simp at hl
  · rintro (⟨q1, q2, q3, q4, q5, q6, q7, q8, q9, qA, qB, qC, qD, qE, hdata, -⟩ |
            ⟨q1, q2, q3, q4, q5, q6, q7, q8, q9, qA, qB, qC, qD, qE, hdata, -⟩ |
            ⟨q1, q2, q3, q4, q5, q6, q7, q8, q9, qA, qB, qC, qD, qE, qF, qG, qH, qI, qJ,
              hdata, -⟩) <;>
      · have hl := congrArg List.length hdata
        simp at hl

/-- C6 counterexample: both literals match accepted shapes and the zone
resolves, yet the call returns a failure, because the plain T-form start is
parsed offset-naive while the space-form end is made offset-aware and their
subtraction raises the generic `TypeError` failure. -/
theorem C6_shape_counterexample :
    specIsoNoSuffixP "2025-09-09T10:00:00"
    ∧ specMatchesSpaceP "2025-09-09 11:00:00"
    ∧ parse_tz emptyTzDb "UTC" = some TZ.utc
    ∧ calculate_time_difference emptyTzDb 0
        "2025-09-09T10:00:00" "2025-09-09 11:00:00" "UTC" = calcGenericError
    ∧ leadChar calcGenericError = some '❌' := by
  refine ⟨?_, ?_, by decide, by decide, by decide⟩
  · exact ⟨'2', '0', '2', '5', '0', '9', '0', '9', '1', '0', '0', '0', '0', '0',
      by decide⟩
  · exact ⟨'2', '0', '2', '5', '0', '9', '0', '9', '1', '1', '0', '0', '0', '0',
      by decide⟩

/-- C9. A timezone name equal to `UTC` up to letter case short-circuits to
the fixed zero-offset zone: the result is independent of the timezone
database, the conversion step yields the zero-offset now, and under `iso`
format the reported UTC offset line is exactly `+0000`. -/
theorem C9_utc_shortcircuit :
    (∀ (db db2 : String → Option PytzZone) (nowE : ℤ) (name fmt : String),
      pyUpper name = "UTC" →
      get_current_datetime db nowE name fmt = get_current_datetime db2 nowE name fmt
      ∧ targetTime db nowE name = some (fromEpochMicros nowE 0 "UTC"))
    ∧ (∀ (db : String → Option PytzZone) (nowE : ℤ) (name : String),
      pyUpper name = "UTC" →
      ∃ p, get_current_datetime db nowE name "iso"
        = p ++ "**UTC Offset:** " ++ "+0000" ++ "\n") := by
  constructor
  · intro db db2 nowE name fmt h
    have ht : ∀ (d : String → Option PytzZone),
        targetTime d nowE name = some (fromEpochMicros nowE 0 "UTC") := by
      intro d
      unfold targetTime
      rw [if_pos h]
    constructor
    · unfold get_current_datetime
      rw [ht db, ht db2]
    · exact ht db
  · intro db nowE name h
    have ht : targetTime db nowE name = some (fromEpochMicros nowE 0 "UTC") := by
      unfold targetTime
      rw [if_pos h]
    have hz : strftimeZfmt (fromEpochMicros nowE 0 "UTC") = "+0000" := rfl
    unfold get_current_datetime
    simp only [ht]
    refine ⟨"🕐 **Current DateTime**\n" ++ "**Timezone:** " ++ name ++ "\n"
      ++ "**Format:** " ++ "iso" ++ "\n"
      ++ "**DateTime:** " ++ formattedTime (fromEpochMicros nowE 0 "UTC") "iso" ++ "\n", ?_⟩
    rw [hz]

/-- Witness for C9 at the lowercase variant `utc`. -/
theorem C9_utc_shortcircuit_witness :
    pyUpper "utc" = "UTC"
    ∧ (get_current_datetime emptyTzDb 0 "utc" "iso"
        = get_current_datetime sampleDb 0 "utc" "iso"
      ∧ targetTime emptyTzDb 0 "utc" = some (fromEpochMicros 0 0 "UTC"))
    ∧ ∃ p, get_current_datetime emptyTzDb 0 "utc" "iso"
        = p ++ "**UTC Offset:** " ++ "+0000" ++ "\n" :=
  ⟨by decide,
   C9_utc_shortcircuit.1 emptyTzDb sampleDb 0 "utc" "iso" (by decide),
   C9_utc_shortcircuit.2 emptyTzDb 0 "utc" (by decide)⟩

theorem targetTime_shape (db : String → Option PytzZone) (nowE : ℤ) (n : String)
    (t : PyDatetime) (h : targetTime db nowE n = some t) :
    ∃ off nm, t = fromEpochMicros nowE off nm := by
  unfold targetTime at h
  by_cases hu : pyUpper n = "UTC"
  · rw [if_pos hu] at h
    injection h with h
    exact ⟨0, "UTC", h.symm⟩
  · rw [if_neg hu] at h
    cases hdb : db n with
    | none => rw [hdb] at h; cases h
    | some z =>
      rw [hdb] at h
      injection h with h
      exact ⟨_, _, h.symm⟩

theorem formattedTime_timestamp (nowE off : ℤ) (nm : String) :
    formattedTime (fromEpochMicros nowE off nm) "timestamp" = toString (pyIntOfMicros nowE) := by
  unfold formattedTime
  rw [if_neg (by decide), if_neg (by decide), if_pos (by decide)]
  rw [naiveMicros_fromEpochMicros nowE off nm]
  have hoff : (fromEpochMicros nowE off nm).tzoff = some off := rfl
  rw [hoff]
  simp only [Option.getD_some]
  congr 1
  congr 1
  omega

/-- C10. For a fixed captured wall-clock instant, the value rendered under
the `timestamp` format is the same decimal integer for every resolvable
timezone name: converting the instant to a display zone never changes its
epoch second count. -/
theorem C10_timestamp_zone_invariant (db : String → Option PytzZone) (nowE : ℤ)
    (n1 n2 : String) (t1 t2 : PyDatetime)
    (h1 : targetTime db nowE n1 = some t1) (h2 : targetTime db nowE n2 = some t2) :
    formattedTime t1 "timestamp" = toString (pyIntOfMicros nowE)
    ∧ formattedTime t2 "timestamp" = toString (pyIntOfMicros nowE)
    ∧ formattedTime t1 "timestamp" = formattedTime t2 "timestamp" := by
  obtain ⟨o1, m1, e1⟩ := targetTime_shape db nowE n1 t1 h1
  obtain ⟨o2, m2, e2⟩ := targetTime_shape db nowE n2 t2 h2
  subst e1
  subst e2
  refine ⟨formattedTime_timestamp nowE o1 m1, formattedTime_timestamp nowE o2 m2, ?_⟩
  rw [formattedTime_timestamp nowE o1 m1, formattedTime_timestamp nowE o2 m2]

/-- Witness for C10: `UTC` and the pytz-modelled `US/Eastern` at the same
instant render the same timestamp. -/
theorem C10_timestamp_zone_invariant_witness :
    ∃ t1 t2, targetTime sampleDb 1757410200123456 "UTC" = some t1
      ∧ targetTime sampleDb 1757410200123456 "US/Eastern" = some t2
      ∧ formattedTime t1 "timestamp" = formattedTime t2 "timestamp" :=
  ⟨_, _, rfl, rfl,
   (C10_timestamp_zone_invariant sampleDb 1757410200123456 "UTC" "US/Eastern" _ _
      rfl rfl).2.2⟩

set_option maxRecDepth 4000 in
/-- C1 (evaluation at the failing input). Parsing the space-form literal
`2025-07-01 12:00:00` under the pytz zone `US/Eastern` attaches the fixed
default offset of the unlocalized zone object, `LMT -04:56`
(`-17760000000` microseconds), not the offset in effect on that summer date.
The offset actually in effect at the denoted moment is EDT `-04:00`
(`-14400000000`): attaching `-17760000000` lands at a UTC instant whose
zone offset is `-14400000000` (so the attached offset is not the one in
effect), whereas attaching `-14400000000` is self-consistent. As a result
the call comparing the literal with the same civil time written with an
explicit `-04:00` offset reports `56 minutes (earlier)` instead of the
`0 seconds (later)` the claim requires. -/
theorem C1_lmt_attachment_eval :
    parse_dt (TZ.pytz usEastern) "2025-07-01 12:00:00"
      = some { year := 2025, month := 7, day := 1, hour := 12, minute := 0, second := 0,
               micro := 0, tzoff := some (-17760000000), tzname := "LMT" }
    ∧ offsetInfoAt usEastern
        (naiveMicros { year := 2025, month := 7, day := 1, hour := 12, minute := 0,
                       second := 0, micro := 0, tzoff := some (-17760000000), tzname := "LMT" }
          - (-17760000000))
      = (-14400000000, "EDT")
    ∧ (-17760000000 : ℤ) ≠ -14400000000
    ∧ offsetInfoAt usEastern
        (naiveMicros { year := 2025, month := 7, day := 1, hour := 12, minute := 0,
                       second := 0, micro := 0, tzoff := some (-17760000000), tzname := "LMT" }
          - (-14400000000))
      = (-14400000000, "EDT")
    ∧ calculate_time_difference sampleDb 0
        "2025-07-01 12:00:00" "2025-07-01T12:00:00-04:00" "US/Eastern"
      = "⏱️ **Time Difference Calculation**\n**From:** 2025-07-01 12:00:00 LMT\n**To:** 2025-07-01 12:00:00 UTC-04:00\n**Timezone:** US/Eastern\n\n**Total Duration:** 3,360 seconds\n**Breakdown:**\n- Days: 0\n- Hours: 0\n- Minutes: 56\n- Seconds: 0\n\n**Summary:** 56 minutes, 0 seconds (earlier)\n" := by
  refine ⟨by decide, by decide, by decide, by decide, by decide⟩

theorem isDigit_beq_false (c t : Char) (hc : c.isDigit = true) (ht : t.isDigit = false) :
    (c == t) = false := by
  cases h : c == t
  · rfl
  · rw [beq_iff_eq] at h
    subst h
    rw [hc] at ht
    cases ht

theorem isDigit_not_isDigit_ne (c t : Char) (hc : c.isDigit = true) (ht : t.isDigit = false) :
    c ≠ t := by
  intro h
  subst h
  rw [hc] at ht
  cases ht

theorem digitsVal_pair (a b : Char) : digitsVal [a, b] = val2 a b := by
  simp [digitsVal, val2]

theorem not_isWhitespace_of_isDigit (c : Char) (hc : c.isDigit = true) :
    c.isWhitespace = false := by
  cases hw : c.isWhitespace
  · rfl
  · exfalso
    simp [Char.isWhitespace] at hw
    rcases hw with ((h | h) | h) | h <;> subst h <;> simp at hc

theorem parseSpaceForm_eval (y1 y2 y3 y4 a1 a2 b1 b2 h1 h2 n1 n2 s1 s2 : Char)
    (hy1 : y1.isDigit = true) (hy2 : y2.isDigit = true) (hy3 : y3.isDigit = true)
    (hy4 : y4.isDigit = true) (ha1 : a1.isDigit = true) (ha2 : a2.isDigit = true)
    (hb1 : b1.isDigit = true) (hb2 : b2.isDigit = true) (hh1 : h1.isDigit = true)
    (hh2 : h2.isDigit = true) (hn1 : n1.isDigit = true) (hn2 : n2.isDigit = true)
    (hs1 : s1.isDigit = true) (hs2 : s2.isDigit = true)
    (hvalid : validYMDHMS (val4 y1 y2 y3 y4) (val2 a1 a2) (val2 b1 b2)
      (val2 h1 h2) (val2 n1 n2) (val2 s1 s2)) :
    parseSpaceForm [y1, y2, y3, y4, '-', a1, a2, '-', b1, b2, ' ',
        h1, h2, ':', n1, n2, ':', s1, s2]
      = some (val4 y1 y2 y3 y4, val2 a1 a2, val2 b1 b2,
          val2 h1 h2, val2 n1 n2, val2 s1 s2) := by
  have hdash : ('-' : Char).isDigit = false := by decide
  have hcolon : (':' : Char).isDigit = false := by decide
  have hspace : (' ' : Char).isDigit = false := by decide
  obtain ⟨v1, v2, v3, v4, v5, v6, v7, v8, v9, v10, v11, v12⟩ := hvalid
  have e1 : takeDigits [a1, a2, '-', b1, b2, ' ', h1, h2, ':', n1, n2, ':', s1, s2]
      = ([a1, a2], '-' :: [b1, b2, ' ', h1, h2, ':', n1, n2, ':', s1, s2]) := by
    simp [takeDigits, ha1, ha2, hdash]
  have e2 : takeDigits [b1, b2, ' ', h1, h2, ':', n1, n2, ':', s1, s2]
      = ([b1, b2], ' ' :: [h1, h2, ':', n1, n2, ':', s1, s2]) := by
    simp [takeDigits, hb1, hb2, hspace]
  have e3 : takeSpaces (' ' :: [h1, h2, ':', n1, n2, ':', s1, s2])
      = ([' '], [h1, h2, ':', n1, n2, ':', s1, s2]) := by
    simp [takeSpaces, not_isWhitespace_of_isDigit h1 hh1]
  have e4 : takeDigits [h1, h2, ':', n1, n2, ':', s1, s2]
      = ([h1, h2], ':' :: [n1, n2, ':', s1, s2]) := by
    simp [takeDigits, hh1, hh2, hcolon]
  have e5 : takeDigits [n1, n2, ':', s1, s2] = ([n1, n2], ':' :: [s1, s2]) := by
    simp [takeDigits, hn1, hn2, hcolon]
  have e6 : takeDigits [s1, s2] = ([s1, s2], ([] : List Char)) := by
    simp [takeDigits, hs1, hs2]
  have hdim : daysInMonthZ (val4 y1 y2 y3 y4) (val2 a1 a2) ≤ 31 := by
    unfold daysInMonthZ
    split_ifs <;> omega
  unfold parseSpaceForm
  simp only [e1, e2, e3, e4, e5, e6, digitsVal_pair, List.length_cons, List.length_nil,
    List.length_singleton]
  rw [if_pos ⟨hy1, hy2, hy3, hy4⟩]
  rw [if_pos ⟨Or.inr trivial, v3, v4⟩]
  rw [if_pos ⟨Or.inr trivial, v5, by omega⟩]
  rw [if_pos (by decide : (0 : ℕ) + 1 ≠ 0)]
  rw [if_pos ⟨Or.inr trivial, v8⟩]
  rw [if_pos ⟨Or.inr trivial, v10⟩]
  rw [if_pos ⟨Or.inr trivial, by omega⟩]
  rw [if_pos trivial]
  rw [if_pos ⟨v1, v2, v3, v4, v5, v6, v7, v8, v9, v10, v11, v12⟩]

theorem parseHMSF_eval (h1 h2 n1 n2 s1 s2 : Char)
    (hh1 : h1.isDigit = true) (hh2 : h2.isDigit = true)
    (hn1 : n1.isDigit = true) (hn2 : n2.isDigit = true)
    (hs1 : s1.isDigit = true) (hs2 : s2.isDigit = true) :
    parseHMSF [h1, h2, ':', n1, n2, ':', s1, s2]
      = some (val2 h1 h2, val2 n1 n2, val2 s1 s2, 0) := by
  unfold parseHMSF
  simp [hh1, hh2, hn1, hn2, hs1, hs2]

theorem splitTzSign_nosign (h1 h2 n1 n2 s1 s2 : Char)
    (hh1 : h1.isDigit = true) (hh2 : h2.isDigit = true)
    (hn1 : n1.isDigit = true) (hn2 : n2.isDigit = true)
    (hs1 : s1.isDigit = true) (hs2 : s2.isDigit = true) :
    splitTzSign [h1, h2, ':', n1, n2, ':', s1, s2]
      = ([h1, h2, ':', n1, n2, ':', s1, s2], none) := by
  have f : ∀ c : Char, c.isDigit = true → ((c = '+' ∨ c = '-') = False) := by
    intro c hc
    simp only [eq_iff_iff, iff_false]
    rintro (h | h) <;> subst h <;> simp at hc
  have fc : (((':' : Char) = '+' ∨ (':' : Char) = '-') = False) := by
    simp only [eq_iff_iff, iff_false]
    rintro (h | h) <;> cases h
  simp [splitTzSign, f h1 hh1, f h2 hh2, f n1 hn1, f n2 hn2, f s1 hs1, f s2 hs2, fc]

theorem replaceZ_noZ (l : List Char) (h : hasChar 'Z' l = false) : replaceZ l = l := by
  induction l with
  | nil => rfl
  | cons c cs ih =>
    unfold hasChar at h
    rw [Bool.or_eq_false_iff] at h
    unfold replaceZ
    rw [if_neg (by simpa using h.1)]
    rw [ih h.2]

theorem fromIso_plain_eval (y1 y2 y3 y4 a1 a2 b1 b2 h1 h2 n1 n2 s1 s2 : Char)
    (hy1 : y1.isDigit = true) (hy2 : y2.isDigit = true) (hy3 : y3.isDigit = true)
    (hy4 : y4.isDigit = true) (ha1 : a1.isDigit = true) (ha2 : a2.isDigit = true)
    (hb1 : b1.isDigit = true) (hb2 : b2.isDigit = true) (hh1 : h1.isDigit = true)
    (hh2 : h2.isDigit = true) (hn1 : n1.isDigit = true) (hn2 : n2.isDigit = true)
    (hs1 : s1.isDigit = true) (hs2 : s2.isDigit = true)
    (hvalid : validYMDHMS (val4 y1 y2 y3 y4) (val2 a1 a2) (val2 b1 b2)
      (val2 h1 h2) (val2 n1 n2) (val2 s1 s2)) :
    fromIso [y1, y2, y3, y4, '-', a1, a2, '-', b1, b2, 'T',
        h1, h2, ':', n1, n2, ':', s1, s2]
      = some { year := val4 y1 y2 y3 y4, month := val2 a1 a2, day := val2 b1 b2,
               hour := val2 h1 h2, minute := val2 n1 n2, second := val2 s1 s2,
               micro := 0, tzoff := none, tzname := "" } := by
  unfold fromIso
  simp only [splitTzSign_nosign h1 h2 n1 n2 s1 s2 hh1 hh2 hn1 hn2 hs1 hs2,
    parseHMSF_eval h1 h2 n1 n2 s1 s2 hh1 hh2 hn1 hn2 hs1 hs2]
  rw [if_pos ⟨hy1, hy2, hy3, hy4, ha1, ha2, hb1, hb2⟩]
  rw [if_pos hvalid]

theorem digitVal_bounds (c : Char) (h : c.isDigit = true) :
    0 ≤ digitVal c ∧ digitVal c ≤ 9 := by
  simp [Char.isDigit] at h
  obtain ⟨h1, h2⟩ := h
  have h1n : 48 ≤ c.toNat := h1
  have h2n : c.toNat ≤ 57 := h2
  unfold digitVal
  omega

theorem parseHMSF_eval_hm (o1 o2 o3 o4 : Char)
    (h1 : o1.isDigit = true) (h2 : o2.isDigit = true)
    (h3 : o3.isDigit = true) (h4 : o4.isDigit = true) :
    parseHMSF [o1, o2, ':', o3, o4] = some (val2 o1 o2, val2 o3 o4, 0, 0) := by
  unfold parseHMSF
  simp [h1, h2, h3, h4]

theorem splitTzSign_sign (h1 h2 n1 n2 s1 s2 sg : Char) (tl : List Char)
    (hh1 : h1.isDigit = true) (hh2 : h2.isDigit = true)
    (hn1 : n1.isDigit = true) (hn2 : n2.isDigit = true)
    (hs1 : s1.isDigit = true) (hs2 : s2.isDigit = true)
    (hsg : sg = '+' ∨ sg = '-') :
    splitTzSign (h1 :: h2 :: ':' :: n1 :: n2 :: ':' :: s1 :: s2 :: sg :: tl)
      = ([h1, h2, ':', n1, n2, ':', s1, s2], some (sg, tl)) := by
  have f : ∀ c : Char, c.isDigit = true → ((c = '+' ∨ c = '-') = False) := by
    intro c hc
    simp only [eq_iff_iff, iff_false]
    rintro (h | h) <;> subst h <;> simp at hc
  have fc : (((':' : Char) = '+' ∨ (':' : Char) = '-') = False) := by
    simp only [eq_iff_iff, iff_false]
    rintro (h | h) <;> cases h
  simp [splitTzSign, f h1 hh1, f h2 hh2, f n1 hn1, f n2 hn2, f s1 hs1, f s2 hs2, fc, hsg]

theorem fromIso_offset_eval (y1 y2 y3 y4 a1 a2 b1 b2 h1 h2 n1 n2 s1 s2 sg o1 o2 o3 o4 : Char)
    (hy1 : y1.isDigit = true) (hy2 : y2.isDigit = true) (hy3 : y3.isDigit = true)
    (hy4 : y4.isDigit = true) (ha1 : a1.isDigit = true) (ha2 : a2.isDigit = true)
    (hb1 : b1.isDigit = true) (hb2 : b2.isDigit = true) (hh1 : h1.isDigit = true)
    (hh2 : h2.isDigit = true) (hn1 : n1.isDigit = true) (hn2 : n2.isDigit = true)
    (hs1 : s1.isDigit = true) (hs2 : s2.isDigit = true)
    (hsg : sg = '+' ∨ sg = '-')
    (ho1 : o1.isDigit = true) (ho2 : o2.isDigit = true)
    (ho3 : o3.isDigit = true) (ho4 : o4.isDigit = true)
    (hoh : val2 o1 o2 ≤ 23) (hom : val2 o3 o4 ≤ 59)
    (hvalid : validYMDHMS (val4 y1 y2 y3 y4) (val2 a1 a2) (val2 b1 b2)
      (val2 h1 h2) (val2 n1 n2) (val2 s1 s2)) :
    fromIso [y1, y2, y3, y4, '-', a1, a2, '-', b1, b2, 'T',
        h1, h2, ':', n1, n2, ':', s1, s2, sg, o1, o2, ':', o3, o4]
      = some { year := val4 y1 y2 y3 y4, month := val2 a1 a2, day := val2 b1 b2,
               hour := val2 h1 h2, minute := val2 n1 n2, second := val2 s1 s2,
               micro := 0,
               tzoff := some ((if sg = '-' then (-1 : ℤ) else 1)
                 * ((val2 o1 o2 * 3600 + val2 o3 o4 * 60 + 0) * 1000000 + 0)),
               tzname := pyTzName ((if sg = '-' then (-1 : ℤ) else 1)
                 * ((val2 o1 o2 * 3600 + val2 o3 o4 * 60 + 0) * 1000000 + 0)) } := by
  have hb1v := digitVal_bounds o1 ho1
  have hb2v := digitVal_bounds o2 ho2
  have hb3v := digitVal_bounds o3 ho3
  have hb4v := digitVal_bounds o4 ho4
  have habs : pyAbs ((if sg = '-' then (-1 : ℤ) else 1)
      * ((val2 o1 o2 * 3600 + val2 o3 o4 * 60 + 0) * 1000000 + 0)) < 86400000000 := by
    unfold pyAbs val2 at *
    split_ifs <;> omega
  unfold fromIso
  simp only [splitTzSign_sign h1 h2 n1 n2 s1 s2 sg [o1, o2, ':', o3, o4]
      hh1 hh2 hn1 hn2 hs1 hs2 hsg,
    parseHMSF_eval h1 h2 n1 n2 s1 s2 hh1 hh2 hn1 hn2 hs1 hs2,
    parseHMSF_eval_hm o1 o2 o3 o4 ho1 ho2 ho3 ho4]
  rw [if_pos ⟨hy1, hy2, hy3, hy4, ha1, ha2, hb1, hb2⟩]
  rw [if_neg (show ¬ ([o1, o2, ':', o3, o4].length < 5) by simp)]
  rw [if_pos ⟨hvalid, habs⟩]

theorem replaceZ_append (l1 l2 : List Char) :
    replaceZ (l1 ++ l2) = replaceZ l1 ++ replaceZ l2 := by
  induction l1 with
  | nil => rfl
  | cons c cs ih =>
    by_cases hc : c = 'Z'
    · subst hc
      simp [replaceZ, ih]
    · simp [replaceZ, hc, ih]

theorem parse_dt_of_space (tz : TZ) (s : String) (h : specMatchesSpaceP s) :
    ∃ dt, parse_dt tz s = some dt ∧ dt.tzoff = some (tzReplaceOff tz)
      ∧ dt.tzname = tzReplaceName tz := by
  obtain ⟨y1, y2, y3, y4, a1, a2, b1, b2, h1, h2, n1, n2, s1, s2, hdata,
    hy1, hy2, hy3, hy4, ha1, ha2, hb1, hb2, hh1, hh2, hn1, hn2, hs1, hs2, hvalid⟩ := h
  have hL1 : (('-' : Char) == 'T') = false := by decide
  have hL2 : ((' ' : Char) == 'T') = false := by decide
  have hL3 : (((':') : Char) == 'T') = false := by decide
  have hT : hasChar 'T' s.data = false := by
    rw [hdata]
    simp [hasChar, hL1, hL2, hL3,
      isDigit_beq_false y1 'T' hy1 (by decide), isDigit_beq_false y2 'T' hy2 (by decide),
      isDigit_beq_false y3 'T' hy3 (by decide), isDigit_beq_false y4 'T' hy4 (by decide),
      isDigit_beq_false a1 'T' ha1 (by decide), isDigit_beq_false a2 'T' ha2 (by decide),
      isDigit_beq_false b1 'T' hb1 (by decide), isDigit_beq_false b2 'T' hb2 (by decide),
      isDigit_beq_false h1 'T' hh1 (by decide), isDigit_beq_false h2 'T' hh2 (by decide),
      isDigit_beq_false n1 'T' hn1 (by decide), isDigit_beq_false n2 'T' hn2 (by decide),
      isDigit_beq_false s1 'T' hs1 (by decide), isDigit_beq_false s2 'T' hs2 (by decide)]
  unfold parse_dt
  simp only [hT, Bool.false_eq_true, if_false]
  rw [hdata, parseSpaceForm_eval y1 y2 y3 y4 a1 a2 b1 b2 h1 h2 n1 n2 s1 s2
    hy1 hy2 hy3 hy4 ha1 ha2 hb1 hb2 hh1 hh2 hn1 hn2 hs1 hs2 hvalid]
  exact ⟨_, rfl, rfl, rfl⟩

theorem parse_dt_of_isoPlain (tz : TZ) (s : String) (h : specIsoNoSuffixP s) :
    ∃ dt, parse_dt tz s = some dt ∧ dt.tzoff = none := by
  obtain ⟨y1, y2, y3, y4, a1, a2, b1, b2, h1, h2, n1, n2, s1, s2, hdata,
    hy1, hy2, hy3, hy4, ha1, ha2, hb1, hb2, hh1, hh2, hn1, hn2, hs1, hs2, hvalid⟩ := h
  have hT : hasChar 'T' s.data = true := by
    rw [hdata]
    simp [hasChar]
  have hZ : hasChar 'Z' s.data = false := by
    rw [hdata]
    simp [hasChar, (by decide : (('-' : Char) == 'Z') = false),
      (by decide : (('T' : Char) == 'Z') = false),
      (by decide : (((':') : Char) == 'Z') = false),
      isDigit_beq_false y1 'Z' hy1 (by decide), isDigit_beq_false y2 'Z' hy2 (by decide),
      isDigit_beq_false y3 'Z' hy3 (by decide), isDigit_beq_false y4 'Z' hy4 (by decide),
      isDigit_beq_false a1 'Z' ha1 (by decide), isDigit_beq_false a2 'Z' ha2 (by decide),
      isDigit_beq_false b1 'Z' hb1 (by decide), isDigit_beq_false b2 'Z' hb2 (by decide),
      isDigit_beq_false h1 'Z' hh1 (by decide), isDigit_beq_false h2 'Z' hh2 (by decide),
      isDigit_beq_false n1 'Z' hn1 (by decide), isDigit_beq_false n2 'Z' hn2 (by decide),
      isDigit_beq_false s1 'Z' hs1 (by decide), isDigit_beq_false s2 'Z' hs2 (by decide)]
  unfold parse_dt
  simp only [hT, if_true]
  rw [replaceZ_noZ s.data hZ, hdata]
  rw [fromIso_plain_eval y1 y2 y3 y4 a1 a2 b1 b2 h1 h2 n1 n2 s1 s2
    hy1 hy2 hy3 hy4 ha1 ha2 hb1 hb2 hh1 hh2 hn1 hn2 hs1 hs2 hvalid]
  exact ⟨_, rfl, rfl⟩

theorem parse_dt_of_isoOffset (tz : TZ) (s : String) (h : specIsoOffsetP s) :
    ∃ dt off, parse_dt tz s = some dt ∧ dt.tzoff = some off := by
  obtain ⟨y1, y2, y3, y4, a1, a2, b1, b2, h1, h2, n1, n2, s1, s2, sg, o1, o2, o3, o4, hdata,
    hy1, hy2, hy3, hy4, ha1, ha2, hb1, hb2, hh1, hh2, hn1, hn2, hs1, hs2, hsg,
    ho1, ho2, ho3, ho4, hoh, hom, hvalid⟩ := h
  have hsgZ : (sg == 'Z') = false := by
    rcases hsg with h | h <;> subst h <;> decide
  have hT : hasChar 'T' s.data = true := by
    rw [hdata]
    simp [hasChar]
  have hZ : hasChar 'Z' s.data = false := by
    rw [hdata]
    simp [hasChar, hsgZ, (by decide : (('-' : Char) == 'Z') = false),
      (by decide : (('T' : Char) == 'Z') = false),
      (by decide : (((':') : Char) == 'Z') = false),
      isDigit_beq_false y1 'Z' hy1 (by decide), isDigit_beq_false y2 'Z' hy2 (by decide),
      isDigit_beq_false y3 'Z' hy3 (by decide), isDigit_beq_false y4 'Z' hy4 (by decide),
      isDigit_beq_false a1 'Z' ha1 (by decide), isDigit_beq_false a2 'Z' ha2 (by decide),
      isDigit_beq_false b1 'Z' hb1 (by decide), isDigit_beq_false b2 'Z' hb2 (by decide),
      isDigit_beq_false h1 'Z' hh1 (by decide), isDigit_beq_false h2 'Z' hh2 (by decide),
      isDigit_beq_false n1 'Z' hn1 (by decide), isDigit_beq_false n2 'Z' hn2 (by decide),
      isDigit_beq_false s1 'Z' hs1 (by decide), isDigit_beq_false s2 'Z' hs2 (by decide),
      isDigit_beq_false o1 'Z' ho1 (by decide), isDigit_beq_false o2 'Z' ho2 (by decide),
      isDigit_beq_false o3 'Z' ho3 (by decide), isDigit_beq_false o4 'Z' ho4 (by decide)]
  unfold parse_dt
  simp only [hT, if_true]
  rw [replaceZ_noZ s.data hZ, hdata]
  rw [fromIso_offset_eval y1 y2 y3 y4 a1 a2 b1 b2 h1 h2 n1 n2 s1 s2 sg o1 o2 o3 o4
    hy1 hy2 hy3 hy4 ha1 ha2 hb1 hb2 hh1 hh2 hn1 hn2 hs1 hs2 hsg
    ho1 ho2 ho3 ho4 hoh hom hvalid]
  exact ⟨_, _, rfl, rfl⟩

theorem parse_dt_of_isoZ (tz : TZ) (s : String) (h : specIsoZP s) :
    ∃ dt, parse_dt tz s = some dt ∧ dt.tzoff = some 0 := by
  obtain ⟨y1, y2, y3, y4, a1, a2, b1, b2, h1, h2, n1, n2, s1, s2, hdata,
    hy1, hy2, hy3, hy4, ha1, ha2, hb1, hb2, hh1, hh2, hn1, hn2, hs1, hs2, hvalid⟩ := h
  have hT : hasChar 'T' s.data = true := by
    rw [hdata]
    simp [hasChar]
  have hsplit : s.data = [y1, y2, y3, y4, '-', a1, a2, '-', b1, b2, 'T',
      h1, h2, ':', n1, n2, ':', s1, s2] ++ ['Z'] := by
    rw [hdata]
    rfl
  have hZ19 : hasChar 'Z' [y1, y2, y3, y4, '-', a1, a2, '-', b1, b2, 'T',
      h1, h2, ':', n1, n2, ':', s1, s2] = false := by
    simp [hasChar, (by decide : (('-' : Char) == 'Z') = false),
      (by decide : (('T' : Char) == 'Z') = false),
      (by decide : (((':') : Char) == 'Z') = false),
      isDigit_beq_false y1 'Z' hy1 (by decide), isDigit_beq_false y2 'Z' hy2 (by decide),
      isDigit_beq_false y3 'Z' hy3 (by decide), isDigit_beq_false y4 'Z' hy4 (by decide),
      isDigit_beq_false a1 'Z' ha1 (by decide), isDigit_beq_false a2 'Z' ha2 (by decide),
      isDigit_beq_false b1 'Z' hb1 (by decide), isDigit_beq_false b2 'Z' hb2 (by decide),
      isDigit_beq_false h1 'Z' hh1 (by decide), isDigit_beq_false h2 'Z' hh2 (by decide),
      isDigit_beq_false n1 'Z' hn1 (by decide), isDigit_beq_false n2 'Z' hn2 (by decide),
      isDigit_beq_false s1 'Z' hs1 (by decide), isDigit_beq_false s2 'Z' hs2 (by decide)]
  have hrz : replaceZ s.data = [y1, y2, y3, y4, '-', a1, a2, '-', b1, b2, 'T',
      h1, h2, ':', n1, n2, ':', s1, s2, '+', '0', '0', ':', '0', '0'] := by
    rw [hsplit, replaceZ_append, replaceZ_noZ _ hZ19]
    rfl
  unfold parse_dt
  simp only [hT, if_true]
  rw [hrz]
  rw [fromIso_offset_eval y1 y2 y3 y4 a1 a2 b1 b2 h1 h2 n1 n2 s1 s2 '+' '0' '0' '0' '0'
    hy1 hy2 hy3 hy4 ha1 ha2 hb1 hb2 hh1 hh2 hn1 hn2 hs1 hs2 (Or.inl rfl)
    (by decide) (by decide) (by decide) (by decide) (by decide) (by decide) hvalid]
  refine ⟨_, rfl, ?_⟩
  simp only [show (val2 '0' '0' : ℤ) = 0 from by decide,
    show (if ('+' : Char) = '-' then (-1 : ℤ) else 1) = 1 from by decide]
  norm_num

/-- C6 (amended). Format acceptance: every literal matching an accepted
spec shape parses successfully, so InvalidFormat is only returned for
literals outside the shapes (though the parsers also accept more, see the
counterexample for C8); a space-form literal is made offset-aware with the
zone attachment offset, a plain T-form literal stays offset-naive, a
Z- or offset-suffixed literal is offset-aware; and whenever the zone
resolves, both datetimes resolve, and the two resolved datetimes agree in
offset-awareness, the call returns the success text, not a failure. -/
theorem C6_shape_acceptance :
    (∀ (tz : TZ) (s : String), specMatchesSpaceP s →
      ∃ dt, parse_dt tz s = some dt ∧ dt.tzoff = some (tzReplaceOff tz)
        ∧ dt.tzname = tzReplaceName tz)
    ∧ (∀ (tz : TZ) (s : String), specIsoNoSuffixP s →
      ∃ dt, parse_dt tz s = some dt ∧ dt.tzoff = none)
    ∧ (∀ (tz : TZ) (s : String), specIsoZP s ∨ specIsoOffsetP s →
      ∃ dt off, parse_dt tz s = some dt ∧ dt.tzoff = some off)
    ∧ (∀ (db : String → Option PytzZone) (nowE : ℤ) (s e tzn : String) (tz : TZ)
        (a b : PyDatetime),
        parse_tz db tzn = some tz →
        parse_dt tz s = some a →
        (if e = "" then some (pyNow tz nowE) else parse_dt tz e) = some b →
        ((a.tzoff = none) ↔ (b.tzoff = none)) →
        ∃ delta, pySub b a = some delta
          ∧ calculate_time_difference db nowE s e tzn = renderSuccess a b tzn delta) := by
  refine ⟨parse_dt_of_space, parse_dt_of_isoPlain, ?_, ?_⟩
  · intro tz s h
    rcases h with h | h
    · obtain ⟨dt, hdt, hoff⟩ := parse_dt_of_isoZ tz s h
      exact ⟨dt, 0, hdt, hoff⟩
    · exact parse_dt_of_isoOffset tz s h
  · intro db nowE s e tzn tz a b hptz hpa hpe hiff
    have hsub : ∃ delta, pySub b a = some delta := by
      unfold pySub
      cases ha : a.tzoff with
      | none =>
        cases hb : b.tzoff with
        | none => exact ⟨_, rfl⟩
        | some ob =>
          rw [ha] at hiff
          rw [hb] at hiff
          simp at hiff
      | some oa =>
        cases hb : b.tzoff with
        | none =>
          rw [ha] at hiff
          rw [hb] at hiff
          simp at hiff
        | some ob => exact ⟨_, rfl⟩
    obtain ⟨delta, hdelta⟩ := hsub
    refine ⟨delta, hdelta, ?_⟩
    unfold calculate_time_difference
    simp only [hptz, hpa, hpe, hdelta]

/-- Witness for C6 at the test-suite inputs: the space shape parses and the
awareness-compatible call succeeds. -/
theorem C6_shape_acceptance_witness :
    (∃ dt, parse_dt TZ.utc "2025-09-09 10:00:00" = some dt
      ∧ dt.tzoff = some (tzReplaceOff TZ.utc) ∧ dt.tzname = tzReplaceName TZ.utc)
    ∧ (∃ delta, pySub sampleAwareB sampleAwareA = some delta
        ∧ calculate_time_difference emptyTzDb 0
            "2025-09-09 10:00:00" "2025-09-09 14:30:00" "UTC"
          = renderSuccess sampleAwareA sampleAwareB "UTC" delta) :=
  ⟨C6_shape_acceptance.1 TZ.utc "2025-09-09 10:00:00"
      ⟨'2', '0', '2', '5', '0', '9', '0', '9', '1', '0', '0', '0', '0', '0',
        by decide⟩,
   C6_shape_acceptance.2.2.2 emptyTzDb 0 "2025-09-09 10:00:00" "2025-09-09 14:30:00"
      "UTC" TZ.utc sampleAwareA sampleAwareB
      (by decide) (by decide) (by decide) (by decide)⟩
